import Mathlib

/-!
Shallow embedding of the geometric-consensus core of the repository:
the shape catalog and helpers (geometric-types.ts), the Betti-number
connectivity analyzer (betti-numbers.ts), the consensus verifier
(geometric-consensus.ts), the partition decomposition table
(partition-detection.ts) and the dual recovery engine
(dual-recovery part of betti-numbers.ts).

JavaScript numbers that arise in the model are exact rationals (ℚ).
Because the kernel cannot unfold the irreducible `Rat.mul` and friends,
the embedding performs its rational arithmetic through `mkRat`-based
helpers (`qMul`, `qRatio`) and an executable ceiling `ceilZ`; bridge
lemmas (`qMul_eq`, `ceilZ_eq`) relate those helpers to the ordinary
Mathlib operations used in the statements.

Thrown JavaScript exceptions are modelled with `Option`/`Except`:
a function that can throw returns `Except String α`, the error string
standing for the exception carried out of the function.
-/

namespace RfcConsensus

/-- Executable multiplication on ℚ (kernel-reducible, unlike `Rat.mul`). -/
def qMul (a b : ℚ) : ℚ := mkRat (a.num * b.num) (a.den * b.den)

/-- Executable quotient of two natural counts, as the exact value of the
JavaScript division `a / b`. -/
def qRatio (a b : ℕ) : ℚ := mkRat a b

/-- Executable ceiling on ℚ, modelling `Math.ceil`. -/
def ceilZ (q : ℚ) : ℤ := -((-q.num).fdiv (q.den : ℤ))

theorem qMul_eq (a b : ℚ) : qMul a b = a * b := by
  rw [qMul, Rat.mkRat_eq_div]
  push_cast
  rw [← div_mul_div_comm, Rat.num_div_den, Rat.num_div_den]

theorem qRatio_eq (a b : ℕ) : qRatio a b = (a : ℚ) / b := by
  rw [qRatio, Rat.mkRat_eq_div]
  push_cast
  rfl

theorem ceilZ_eq (q : ℚ) : ceilZ q = ⌈q⌉ := by
  have h1 : (-q).num = -q.num := by simp
  have h2 : (-q).den = q.den := by simp
  have hfloor : ⌊-q⌋ = (-q.num).fdiv (q.den : ℤ) := by
    rw [Rat.floor_def, h1, h2, Int.fdiv_eq_ediv _ (by positivity)]
  rw [ceilZ, ← hfloor, ← neg_neg ⌈q⌉, ← Int.floor_neg]

/-- `Math.max(0, Math.min(1, q))`, written with the executable `Rat.blt`. -/
def clamp01 (q : ℚ) : ℚ :=
  let m := if Rat.blt 1 q then 1 else q
  if Rat.blt m 0 then 0 else m

theorem clamp01_eq (q : ℚ) : clamp01 q = max 0 (min 1 q) := by
  have hb : ∀ a b : ℚ, (Rat.blt a b = true) = (a < b) := fun a b => rfl
  simp only [clamp01, hb]
  rcases lt_or_le 1 q with h | h
  · rw [if_pos h, min_eq_left h.le]
    rw [if_neg (by norm_num), max_eq_right (by norm_num)]
  · rw [if_neg (not_lt.mpr h), min_eq_right h]
    rcases lt_or_le q 0 with h0 | h0
    · rw [if_pos h0, max_eq_left h0.le]
    · rw [if_neg (not_lt.mpr h0), max_eq_right h0]

/-!  ## Shape catalog (geometric-types.ts)  -/

/-- A catalog entry, as in `GeometricShape` of geometric-types.ts.
Shape identifiers (`GeometricType` string-enum values) are modelled as
strings. -/
structure GeometricShape where
  type : String
  name : String
  vertices : ℕ
  edges : ℕ
  faces : ℕ
  threshold : ℚ
  dual : Option String := none
  isSelfDual : Bool
  dimension : ℕ
  schlaefli : Option String := none
  context : String
  description : String
deriving Repr, DecidableEq

/-- The fixed shape catalog `GEOMETRIC_SHAPES` of geometric-types.ts,
as a list of entries (the record key always equals the `type` field). -/
def GEOMETRIC_SHAPES : List GeometricShape := [
  { type := "POINT", name := "Point", vertices := 1, edges := 0, faces := 0,
    threshold := mkRat 1 1, isSelfDual := true, dimension := 0, context := "local",
    description := "0D point - unanimous consensus required" },
  { type := "LINE", name := "Line", vertices := 2, edges := 1, faces := 0,
    threshold := mkRat 1 1, isSelfDual := true, dimension := 1, context := "local",
    description := "1D line - bilateral consensus" },
  { type := "TRIANGLE", name := "Triangle", vertices := 3, edges := 3, faces := 1,
    threshold := mkRat 1 1, isSelfDual := true, dimension := 2, context := "local",
    description := "2D triangle - trilateral consensus" },
  { type := "SQUARE", name := "Square", vertices := 4, edges := 4, faces := 1,
    threshold := mkRat 75 100, dual := some "SQUARE", isSelfDual := true, dimension := 2,
    context := "local", description := "2D square - quadrilateral consensus" },
  { type := "TETRAHEDRON", name := "Tetrahedron", vertices := 4, edges := 6, faces := 4,
    threshold := mkRat 1 1, dual := some "TETRAHEDRON", isSelfDual := true, dimension := 3,
    schlaefli := some "\x7b3,3\x7d", context := "local",
    description := "3D tetrahedron - MUST (unanimous)" },
  { type := "CUBE", name := "Cube", vertices := 8, edges := 12, faces := 6,
    threshold := mkRat 5 10, dual := some "OCTAHEDRON", isSelfDual := false, dimension := 3,
    schlaefli := some "\x7b4,3\x7d", context := "local",
    description := "3D cube - MAY (majority)" },
  { type := "OCTAHEDRON", name := "Octahedron", vertices := 6, edges := 12, faces := 8,
    threshold := mkRat 833 1000, dual := some "CUBE", isSelfDual := false, dimension := 3,
    schlaefli := some "\x7b3,4\x7d", context := "local",
    description := "3D octahedron - SHOULD (strong consensus)" },
  { type := "DODECAHEDRON", name := "Dodecahedron", vertices := 20, edges := 30, faces := 12,
    threshold := mkRat 6 10, dual := some "ICOSAHEDRON", isSelfDual := false, dimension := 3,
    schlaefli := some "\x7b5,3\x7d", context := "local",
    description := "3D dodecahedron - committee consensus" },
  { type := "ICOSAHEDRON", name := "Icosahedron", vertices := 12, edges := 30, faces := 20,
    threshold := mkRat 75 100, dual := some "DODECAHEDRON", isSelfDual := false, dimension := 3,
    schlaefli := some "\x7b3,5\x7d", context := "local",
    description := "3D icosahedron - high consensus" },
  { type := "FIVE_CELL", name := "5-cell", vertices := 5, edges := 10, faces := 10,
    threshold := mkRat 1 1, dual := some "FIVE_CELL", isSelfDual := true, dimension := 4,
    schlaefli := some "\x7b3,3,3\x7d", context := "federation",
    description := "4D 5-cell - MUST_FEDERATION (unanimous)" },
  { type := "EIGHT_CELL", name := "8-cell", vertices := 16, edges := 32, faces := 24,
    threshold := mkRat 5 10, dual := some "SIXTEEN_CELL", isSelfDual := false, dimension := 4,
    schlaefli := some "\x7b4,3,3\x7d", context := "federation",
    description := "4D 8-cell - MAY_FEDERATION (majority)" },
  { type := "SIXTEEN_CELL", name := "16-cell", vertices := 8, edges := 24, faces := 32,
    threshold := mkRat 75 100, dual := some "EIGHT_CELL", isSelfDual := false, dimension := 4,
    schlaefli := some "\x7b3,3,4\x7d", context := "federation",
    description := "4D 16-cell - SHOULD_FEDERATION (strong consensus)" },
  { type := "TWENTY_FOUR_CELL", name := "24-cell", vertices := 24, edges := 96, faces := 96,
    threshold := mkRat 833 1000, dual := some "TWENTY_FOUR_CELL", isSelfDual := true,
    dimension := 4, schlaefli := some "\x7b3,4,3\x7d", context := "federation",
    description := "4D 24-cell - SHOULD_FEDERATION (strong consensus)" },
  { type := "SIX_HUNDRED_CELL", name := "600-cell", vertices := 120, edges := 720,
    faces := 1200, threshold := mkRat 6 10, dual := some "SIX_HUNDRED_CELL",
    isSelfDual := false, dimension := 4, schlaefli := some "\x7b3,3,5\x7d",
    context := "federation", description := "4D 600-cell - large federation consensus" },
  { type := "TRUNCATED_TETRAHEDRON", name := "Truncated Tetrahedron", vertices := 12,
    edges := 18, faces := 8, threshold := mkRat 1 1, isSelfDual := false, dimension := 3,
    context := "global", description := "3D truncated tetrahedron - MUST_GLOBAL (unanimous)" },
  { type := "CUBOCTAHEDRON", name := "Cuboctahedron", vertices := 12, edges := 24,
    faces := 14, threshold := mkRat 833 1000, isSelfDual := false, dimension := 3,
    context := "global",
    description := "3D cuboctahedron - SHOULD_GLOBAL (strong consensus)" },
  { type := "TRUNCATED_CUBE", name := "Truncated Cube", vertices := 24, edges := 36,
    faces := 14, threshold := mkRat 5 10, isSelfDual := false, dimension := 3,
    context := "global", description := "3D truncated cube - MAY_GLOBAL (majority)" },
  { type := "TRUNCATED_OCTAHEDRON", name := "Truncated Octahedron", vertices := 24,
    edges := 36, faces := 14, threshold := mkRat 75 100, isSelfDual := false, dimension := 3,
    context := "global", description := "3D truncated octahedron - committee consensus" },
  { type := "RHOMBICUBOCTAHEDRON", name := "Rhombicuboctahedron", vertices := 24,
    edges := 48, faces := 26, threshold := mkRat 625 1000, isSelfDual := false,
    dimension := 3, context := "global",
    description := "3D rhombicuboctahedron - balanced consensus" },
  { type := "TRUNCATED_CUBOCTAHEDRON", name := "Truncated Cuboctahedron", vertices := 48,
    edges := 72, faces := 26, threshold := mkRat 5 10, isSelfDual := false, dimension := 3,
    context := "global", description := "3D truncated cuboctahedron - MAY_GLOBAL (majority)" },
  { type := "SNUB_CUBE", name := "Snub Cube", vertices := 24, edges := 60, faces := 38,
    threshold := mkRat 75 100, isSelfDual := false, dimension := 3, context := "global",
    description := "3D snub cube - committee consensus" },
  { type := "ICOSIDODECAHEDRON", name := "Icosidodecahedron", vertices := 30, edges := 60,
    faces := 32, threshold := mkRat 8 10, isSelfDual := false, dimension := 3,
    context := "global", description := "3D icosidodecahedron - strong consensus" },
  { type := "TRUNCATED_DODECAHEDRON", name := "Truncated Dodecahedron", vertices := 60,
    edges := 90, faces := 32, threshold := mkRat 5 10, isSelfDual := false, dimension := 3,
    context := "global",
    description := "3D truncated dodecahedron - MAY_GLOBAL (majority)" },
  { type := "TRUNCATED_ICOSAHEDRON", name := "Truncated Icosahedron", vertices := 60,
    edges := 90, faces := 32, threshold := mkRat 75 100, isSelfDual := false, dimension := 3,
    context := "global", description := "3D truncated icosahedron - committee consensus" },
  { type := "RHOMBICOSIDODECAHEDRON", name := "Rhombicosidodecahedron", vertices := 60,
    edges := 120, faces := 62, threshold := mkRat 6 10, isSelfDual := false, dimension := 3,
    context := "global", description := "3D rhombicosidodecahedron - balanced consensus" },
  { type := "TRUNCATED_ICOSIDODECAHEDRON", name := "Truncated Icosidodecahedron",
    vertices := 120, edges := 180, faces := 62, threshold := mkRat 5 10,
    isSelfDual := false, dimension := 3, context := "global",
    description := "3D truncated icosidodecahedron - MAY_GLOBAL (majority)" },
  { type := "SNUB_DODECAHEDRON", name := "Snub Dodecahedron", vertices := 60, edges := 150,
    faces := 92, threshold := mkRat 75 100, isSelfDual := false, dimension := 3,
    context := "global", description := "3D snub dodecahedron - committee consensus" }
]

/-- `getGeometricShape` of geometric-types.ts. The TypeScript function throws
`Unknown geometric type` for an identifier outside the catalog; here that
exceptional outcome is `none`. -/
def getGeometricShape (t : String) : Option GeometricShape :=
  GEOMETRIC_SHAPES.find? (fun s => s.type == t)

/-- `getDual` of geometric-types.ts: the shape itself when self-dual, the
catalog entry of the declared dual otherwise, `none` when no dual is
declared (in the catalog every declared dual resolves, so the throwing
branch of the inner lookup is unreachable). -/
def getDual (s : GeometricShape) : Option GeometricShape :=
  if s.isSelfDual then some s
  else match s.dual with
    | some d => getGeometricShape d
    | none => none

/-- `calculateRequiredAgreement` of geometric-types.ts:
`Math.ceil(shape.vertices * shape.threshold)`. -/
def calculateRequiredAgreement (s : GeometricShape) : ℤ :=
  ceilZ (qMul (mkRat s.vertices 1) s.threshold)

/-- `isValidForConsensus` of geometric-types.ts: `agreesCount >= required`. -/
def isValidForConsensus (s : GeometricShape) (agreesCount : ℕ) : Bool :=
  calculateRequiredAgreement s ≤ (agreesCount : ℤ)

/-- `getConsensusKeyword` of geometric-types.ts. -/
def getConsensusKeyword (s : GeometricShape) : String :=
  if ¬ Rat.blt s.threshold (mkRat 1 1) then "MUST_" ++ s.context.toUpper
  else if ¬ Rat.blt s.threshold (mkRat 8 10) then "SHOULD_" ++ s.context.toUpper
  else "MAY_" ++ s.context.toUpper

/-!  ## Connectivity analyzer (`BettiCalculator` of betti-numbers.ts)  -/

/-- A topological vertex, as in `Vertex` of betti-numbers.ts.  The
`connected` set is declared in the source but never populated. -/
structure Vertex where
  id : String
  name : String
  connected : List String := []
deriving Repr, DecidableEq

instance : Inhabited Vertex := ⟨⟨"", "", []⟩⟩

/-- An undirected edge, as in `Edge` of betti-numbers.ts (`fromId`/`toId`
stand for the source fields `from`/`to`; `from` is a Lean keyword). -/
structure Edge where
  id : String
  fromId : String
  toId : String
deriving Repr, DecidableEq

/-- The triple of topological invariants, as in `BettiNumbers`. -/
structure BettiNumbers where
  beta_0 : ℕ
  beta_1 : ℕ
  beta_2 : ℕ
deriving Repr, DecidableEq

/-- The vertex-id → index map built by `buildAdjacencyMatrix` with
`vertices.forEach((v, i) => vertexIndex.set(v.id, i))`: for a duplicated
id the last occurrence wins. -/
def vertexIndexOf (vs : List Vertex) (ident : String) : Option ℕ :=
  (List.range vs.length).foldl
    (fun acc i => if (vs.getD i default).id = ident then some i else acc) none

/-- `buildAdjacencyMatrix` of betti-numbers.ts, as a symmetric boolean
matrix function: each edge whose endpoint ids both resolve sets the two
symmetric entries. -/
def buildAdjacencyMatrix (vs : List Vertex) (es : List Edge) : ℕ → ℕ → Bool :=
  es.foldl
    (fun m e =>
      match vertexIndexOf vs e.fromId, vertexIndexOf vs e.toId with
      | some i, some j =>
          fun a b => if (a = i ∧ b = j) ∨ (a = j ∧ b = i) then true else m a b
      | _, _ => m)
    (fun _ _ => false)

/-- The recursive `dfs` of betti-numbers.ts: mark the vertex visited, then
scan row `v` of the adjacency matrix (the `for` loop is the fold over
`List.range n`), recursing into unvisited neighbours.  The extra `fuel`
argument makes the recursion structural; the call sites supply fuel `n`,
which bounds the possible recursion depth (every nested call is on a newly
visited vertex). -/
def dfsVisit (n : ℕ) (adj : ℕ → ℕ → Bool) : ℕ → ℕ → (ℕ → Bool) → (ℕ → Bool)
  | 0, _, visited => visited
  | fuel + 1, v, visited =>
      (List.range n).foldl
        (fun vis i => if adj v i && !vis i then dfsVisit n adj fuel i vis else vis)
        (fun w => if w = v then true else visited w)

/-- The counting loop of `calculateConnectedComponents`: start a DFS at
every not-yet-visited vertex index and count the starts. -/
def ccLoop (n : ℕ) (adj : ℕ → ℕ → Bool) : List ℕ → (ℕ → Bool) → ℕ → ℕ
  | [], _, count => count
  | i :: rest, visited, count =>
      if visited i then ccLoop n adj rest visited count
      else ccLoop n adj rest (dfsVisit n adj n i visited) (count + 1)

/-- `calculateConnectedComponents` of betti-numbers.ts. -/
def calculateConnectedComponents (vs : List Vertex) (adj : ℕ → ℕ → Bool) : ℕ :=
  ccLoop vs.length adj (List.range vs.length) (fun _ => false) 0

/-- `calculateCycles` of betti-numbers.ts: `Math.max(0, E - V + C)`
(`Int.toNat` clamps the negative case to 0, exactly as the `max`). -/
def calculateCycles (vs : List Vertex) (es : List Edge) : ℕ :=
  ((es.length : ℤ) - (vs.length : ℤ) +
    (calculateConnectedComponents vs (buildAdjacencyMatrix vs es) : ℤ)).toNat

/-- `calculateVoids` of betti-numbers.ts: always 0. -/
def calculateVoids (_vs : List Vertex) (_es : List Edge) : ℕ := 0

/-- `calculateBettiNumbers` of betti-numbers.ts. -/
def calculateBettiNumbers (vs : List Vertex) (es : List Edge) : BettiNumbers :=
  if vs.length = 0 then ⟨0, 0, 0⟩
  else
    { beta_0 := calculateConnectedComponents vs (buildAdjacencyMatrix vs es),
      beta_1 := calculateCycles vs es,
      beta_2 := calculateVoids vs es }

/-- `detectPartition` of betti-numbers.ts: `beta_0 > 1`. -/
def detectPartition (b : BettiNumbers) : Bool := 1 < b.beta_0

/-- `countPartitions` of betti-numbers.ts. -/
def countPartitions (b : BettiNumbers) : ℕ := b.beta_0

/-!  ## Consensus verifier (`GeometricConsensus` of geometric-consensus.ts)  -/

/-- A per-participant vote, as in `DecisionVertex` of
geometric-consensus.ts. -/
structure DecisionVertex where
  id : String
  name : String
  agrees : Bool
  justif : Option String := none
  weight : Option ℚ := none
deriving Repr, DecidableEq

instance : Inhabited DecisionVertex := ⟨⟨"", "", false, none, none⟩⟩

/-- A consensus certificate, as in `ConsensusCertificate` of
geometric-consensus.ts.  The generated `certificateId` and the issuance
`timestamp` (clock/randomness, advisory metadata) are not modelled.
`partitionInfo` is the pair (isPartitioned, partitionCount). -/
structure ConsensusCertificate where
  geometricType : String
  shape : GeometricShape
  vertices : List DecisionVertex
  agreesCount : ℕ
  requiredCount : ℤ
  thresholdPercentage : ℚ
  valid : Bool
  proof : String
  bettiNumbers : Option BettiNumbers := none
  partitionInfo : Option (Bool × ℕ) := none
deriving Repr, DecidableEq

/-- As in `ConsensusResult` of geometric-consensus.ts. -/
structure ConsensusResult where
  certificate : ConsensusCertificate
  success : Bool
  message : String
deriving Repr, DecidableEq

/-- `convertToVertices` of geometric-consensus.ts. -/
def convertToVertices (criteria : List DecisionVertex) : List Vertex :=
  criteria.map (fun v => { id := v.id, name := v.name, connected := [] })

/-- `buildConsensusEdges` of geometric-consensus.ts: an edge between every
pair `i < j` of votes with the same boolean agreement value. -/
def buildConsensusEdges (criteria : List DecisionVertex) : List Edge :=
  (List.range criteria.length).flatMap (fun i =>
    ((List.range criteria.length).filter (fun j => i < j)).filterMap (fun j =>
      if (criteria.getD i default).agrees = (criteria.getD j default).agrees then
        some { id := "consensus-edge-" ++ toString i ++ "-" ++ toString j,
               fromId := (criteria.getD i default).id,
               toId := (criteria.getD j default).id }
      else none))

/-- `generateMathematicalProof` of geometric-consensus.ts (the numeric
pretty-printing of the narrative is condensed; no claim depends on it). -/
def generateMathematicalProof (shape : GeometricShape) (agreesCount : ℕ)
    (requiredCount : ℤ) (valid : Bool) : String :=
  "Mathematical Proof for " ++ getConsensusKeyword shape ++ " Consensus: " ++
    shape.name ++ " requires " ++ toString requiredCount ++ "/" ++
    toString shape.vertices ++ ", actual " ++ toString agreesCount ++ "/" ++
    toString shape.vertices ++ "; conclusion: " ++
    (if valid then "CONSENSUS ACHIEVED" else "CONSENSUS FAILED")

/-- `createConsensusCertificate` of geometric-consensus.ts. -/
def createConsensusCertificate (criteria : List DecisionVertex)
    (shape : GeometricShape) (_description : String) : ConsensusCertificate :=
  let agreesCount := (criteria.filter (fun v => v.agrees)).length
  let requiredCount := calculateRequiredAgreement shape
  let valid := isValidForConsensus shape agreesCount
  let vertices := convertToVertices criteria
  let edges := buildConsensusEdges criteria
  let betti := calculateBettiNumbers vertices edges
  { geometricType := shape.type,
    shape := shape,
    vertices := criteria,
    agreesCount := agreesCount,
    requiredCount := requiredCount,
    thresholdPercentage := shape.threshold,
    valid := valid,
    proof := generateMathematicalProof shape agreesCount requiredCount valid,
    bettiNumbers := some betti,
    partitionInfo := some (detectPartition betti, countPartitions betti) }

/-- `createErrorCertificate` of geometric-consensus.ts.  It calls
`getGeometricShape(geometricType)` for the `shape` field, so when the
identifier is unknown it throws again: that outcome is `none`. -/
def createErrorCertificate (criteria : List DecisionVertex) (t : String)
    (msg : String) : Option ConsensusCertificate :=
  (getGeometricShape t).map (fun shape =>
    { geometricType := t,
      shape := shape,
      vertices := criteria,
      agreesCount := 0,
      requiredCount := 0,
      thresholdPercentage := 0,
      valid := false,
      proof := "Error in consensus verification: " ++ msg })

/-- `verifyConsensus` of geometric-consensus.ts.  The only throwing step
inside its `try` block is the shape resolution; the `catch` block calls
`createErrorCertificate`, whose own shape resolution re-throws, and that
second exception escapes `verifyConsensus` — modelled as `Except.error`. -/
def verifyConsensus (criteria : List DecisionVertex) (t : String)
    (description : String) : Except String ConsensusResult :=
  match getGeometricShape t with
  | some shape =>
      let certificate := createConsensusCertificate criteria shape description
      Except.ok
        { certificate := certificate,
          success := certificate.valid,
          message :=
            if certificate.valid then "Consensus achieved" else "Consensus failed" }
  | none =>
      match createErrorCertificate criteria t ("Unknown geometric type: " ++ t) with
      | some certificate =>
          Except.ok
            { certificate := certificate,
              success := false,
              message := "Consensus verification failed: Unknown geometric type: " ++ t }
      | none => Except.error ("Unknown geometric type: " ++ t)

/-!  ## Partition decomposition (`PartitionDetector` of partition-detection.ts)  -/

/-- The static `decompositionMap` of `decomposeGeometricType`, keyed by the
original shape identifier; each entry lists (piece count ↦ decomposed
shape) pairs in the source order.  The map covers every `GeometricType`
enum value, so only unknown identifier strings fall outside it. -/
def decompositionTableOf (t : String) : Option (List (ℕ × String)) :=
  if t = "CUBE" then some [(2, "TETRAHEDRON"), (4, "TRIANGLE"), (8, "POINT")]
  else if t = "OCTAHEDRON" then some [(2, "TRIANGLE"), (3, "LINE"), (6, "POINT")]
  else if t = "TETRAHEDRON" then some [(2, "LINE"), (4, "POINT")]
  else if t = "TWENTY_FOUR_CELL" then some
    [(2, "DODECAHEDRON"), (3, "OCTAHEDRON"), (4, "TETRAHEDRON"), (6, "SQUARE"),
     (8, "TRIANGLE"), (12, "LINE"), (24, "POINT")]
  else if t = "FIVE_CELL" then some [(2, "TRIANGLE"), (5, "POINT")]
  else if t = "DODECAHEDRON" then some
    [(2, "ICOSAHEDRON"), (4, "OCTAHEDRON"), (5, "TETRAHEDRON"), (10, "TRIANGLE"),
     (20, "POINT")]
  else if t = "ICOSAHEDRON" then some
    [(2, "DODECAHEDRON"), (3, "OCTAHEDRON"), (4, "TETRAHEDRON"), (6, "TRIANGLE"),
     (12, "POINT")]
  else if t = "POINT" then some [(1, "POINT")]
  else if t = "LINE" then some [(1, "LINE"), (2, "POINT")]
  else if t = "TRIANGLE" then some [(1, "TRIANGLE"), (2, "LINE"), (3, "POINT")]
  else if t = "SQUARE" then some [(1, "SQUARE"), (2, "LINE"), (4, "POINT")]
  else if t = "EIGHT_CELL" then some
    [(1, "EIGHT_CELL"), (2, "CUBE"), (4, "TETRAHEDRON"), (8, "POINT")]
  else if t = "SIXTEEN_CELL" then some
    [(1, "SIXTEEN_CELL"), (2, "OCTAHEDRON"), (4, "TETRAHEDRON"), (8, "TRIANGLE"),
     (16, "POINT")]
  else if t = "SIX_HUNDRED_CELL" then some
    [(1, "SIX_HUNDRED_CELL"), (2, "ICOSAHEDRON"), (3, "DODECAHEDRON"),
     (4, "OCTAHEDRON"), (5, "TETRAHEDRON"), (6, "TRIANGLE"), (10, "LINE"),
     (20, "POINT")]
  else if t = "TRUNCATED_TETRAHEDRON" then some
    [(1, "TRUNCATED_TETRAHEDRON"), (2, "TRIANGLE"), (4, "POINT")]
  else if t = "CUBOCTAHEDRON" then some
    [(1, "CUBOCTAHEDRON"), (2, "TETRAHEDRON"), (3, "TRIANGLE"), (6, "POINT")]
  else if t = "TRUNCATED_CUBE" then some
    [(1, "TRUNCATED_CUBE"), (2, "CUBE"), (4, "TETRAHEDRON"), (8, "POINT")]
  else if t = "TRUNCATED_OCTAHEDRON" then some
    [(1, "TRUNCATED_OCTAHEDRON"), (2, "OCTAHEDRON"), (3, "TETRAHEDRON"), (6, "POINT")]
  else if t = "RHOMBICUBOCTAHEDRON" then some
    [(1, "RHOMBICUBOCTAHEDRON"), (2, "CUBE"), (4, "TETRAHEDRON"), (8, "POINT")]
  else if t = "TRUNCATED_CUBOCTAHEDRON" then some
    [(1, "TRUNCATED_CUBOCTAHEDRON"), (2, "CUBOCTAHEDRON"), (3, "TETRAHEDRON"),
     (6, "POINT")]
  else if t = "SNUB_CUBE" then some
    [(1, "SNUB_CUBE"), (2, "CUBE"), (4, "TETRAHEDRON"), (8, "POINT")]
  else if t = "ICOSIDODECAHEDRON" then some
    [(1, "ICOSIDODECAHEDRON"), (2, "DODECAHEDRON"), (3, "ICOSAHEDRON"),
     (6, "TETRAHEDRON"), (12, "POINT")]
  else if t = "TRUNCATED_DODECAHEDRON" then some
    [(1, "TRUNCATED_DODECAHEDRON"), (2, "DODECAHEDRON"), (3, "ICOSAHEDRON"),
     (6, "TETRAHEDRON"), (12, "POINT")]
  else if t = "TRUNCATED_ICOSAHEDRON" then some
    [(1, "TRUNCATED_ICOSAHEDRON"), (2, "ICOSAHEDRON"), (3, "DODECAHEDRON"),
     (6, "TETRAHEDRON"), (12, "POINT")]
  else if t = "RHOMBICOSIDODECAHEDRON" then some
    [(1, "RHOMBICOSIDODECAHEDRON"), (2, "DODECAHEDRON"), (3, "ICOSAHEDRON"),
     (6, "TETRAHEDRON"), (12, "POINT")]
  else if t = "TRUNCATED_ICOSIDODECAHEDRON" then some
    [(1, "TRUNCATED_ICOSIDODECAHEDRON"), (2, "ICOSAHEDRON"), (3, "DODECAHEDRON"),
     (6, "TETRAHEDRON"), (12, "POINT")]
  else if t = "SNUB_DODECAHEDRON" then some
    [(1, "SNUB_DODECAHEDRON"), (2, "DODECAHEDRON"), (3, "ICOSAHEDRON"),
     (6, "TETRAHEDRON"), (12, "POINT")]
  else none

/-- The selection loop of `decomposeGeometricType`: scan the table entries,
keeping the entry with the largest key that is `≤ partitionCount`
(`count <= partitionCount && count > bestPartitionCount`); the running
best starts as `(0, POINT)`. -/
def selectDecomposition (entries : List (ℕ × String)) (partitionCount : ℕ) : String :=
  (entries.foldl
    (fun best e => if e.1 ≤ partitionCount ∧ best.1 < e.1 then e else best)
    (0, "POINT")).2

/-- `getDefaultDecomposition` of partition-detection.ts: the generic
`Math.floor(shape.vertices / partitionCount)` rule.  For `partitionCount = 0`
the JavaScript quotient is `Infinity`, which lands in the first (≥ 20)
bucket; `none` models the thrown `Unknown geometric type`. -/
def getDefaultDecomposition (original : String) (partitionCount : ℕ) : Option String :=
  (getGeometricShape original).map (fun shape =>
    if partitionCount = 0 then "DODECAHEDRON"
    else
      let verticesPerPartition := shape.vertices / partitionCount
      if 20 ≤ verticesPerPartition then "DODECAHEDRON"
      else if 12 ≤ verticesPerPartition then "ICOSAHEDRON"
      else if 8 ≤ verticesPerPartition then "CUBE"
      else if 6 ≤ verticesPerPartition then "OCTAHEDRON"
      else if 4 ≤ verticesPerPartition then "TETRAHEDRON"
      else if 3 ≤ verticesPerPartition then "TRIANGLE"
      else if 2 ≤ verticesPerPartition then "LINE"
      else "POINT")

/-- `decomposeGeometricType` of partition-detection.ts. -/
def decomposeGeometricType (original : String) (partitionCount : ℕ) : Option String :=
  match decompositionTableOf original with
  | some entries => some (selectDecomposition entries partitionCount)
  | none => getDefaultDecomposition original partitionCount

/-!  ## Dual recovery (`DualPartitionRecovery` of betti-numbers.ts)  -/

/-- As in `DualRecoveryResult`; the nested `dualMapping` record is
flattened into the three `dualMapping*`/`thresholdMapping` fields, and the
timestamp is not modelled. -/
structure DualRecoveryResult where
  success : Bool
  recoveredCertificate : ConsensusCertificate
  recoveryProof : String
  dualMappingOriginal : String
  dualMappingDual : String
  thresholdMapping : ℚ
deriving Repr, DecidableEq

/-- The intermediate record returned by `applyDualMapping`. -/
structure UnifiedConsensus where
  totalAgrees : ℕ
  totalVertices : ℕ
  unifiedThreshold : ℚ
  valid : Bool
deriving Repr, DecidableEq

/-- `mapThresholdViaDual` of betti-numbers.ts: resolve both shapes (a
failure is `none`, the thrown `Unknown geometric type`); identical
identifiers keep the threshold; otherwise the threshold is multiplied by
`dualShape.vertices / originalShape.faces` and clamped to `[0, 1]`. -/
def mapThresholdViaDual (partitionThreshold : ℚ) (original dual : String) : Option ℚ :=
  match getGeometricShape original, getGeometricShape dual with
  | some originalShape, some dualShape =>
      some (if original = dual then partitionThreshold
            else clamp01 (qMul partitionThreshold (qRatio dualShape.vertices originalShape.faces)))
  | _, _ => none

/-- `validatePartitionCertificates` of betti-numbers.ts: empty input, any
invalid certificate, or a geometric type differing from the first
certificate each raise a distinct error. -/
def validatePartitionCertificates (certificates : List ConsensusCertificate) :
    Except String Unit :=
  match certificates with
  | [] => Except.error "No partition certificates provided"
  | first :: _ =>
      let invalidCertificates := certificates.filter (fun cert => !cert.valid)
      if 0 < invalidCertificates.length then
        Except.error ("Invalid certificates found: " ++ toString invalidCertificates.length)
      else
        let inconsistentTypes :=
          certificates.filter (fun cert => cert.geometricType ≠ first.geometricType)
        if 0 < inconsistentTypes.length then
          Except.error "Inconsistent geometric types in partition certificates"
        else Except.ok ()

/-- `applyDualMapping` of betti-numbers.ts: sum agreements and vote counts
over all partitions, map the original threshold through the dual, and
compare against `Math.ceil(totalVertices * unifiedThreshold)`. -/
def applyDualMapping (partitionCertificates : List ConsensusCertificate)
    (originalShape dualShape : GeometricShape) : Option UnifiedConsensus :=
  let totalAgrees : ℕ := (partitionCertificates.map (fun cert => cert.agreesCount)).sum
  let totalVertices : ℕ :=
    (partitionCertificates.map (fun cert => cert.vertices.length)).sum
  (mapThresholdViaDual originalShape.threshold originalShape.type dualShape.type).map
    (fun unifiedThreshold =>
      let requiredAgreement := ceilZ (qMul (mkRat totalVertices 1) unifiedThreshold)
      { totalAgrees := totalAgrees,
        totalVertices := totalVertices,
        unifiedThreshold := unifiedThreshold,
        valid := requiredAgreement ≤ (totalAgrees : ℤ) })

/-- `calculateThresholdMapping` of betti-numbers.ts: 1.0 for a self-dual
pair, the face-vertex ratio otherwise. -/
def calculateThresholdMapping (original dual : GeometricShape) : ℚ :=
  if original.type = dual.type then 1 else qRatio dual.vertices original.faces

/-- `generateRecoveryProof` of betti-numbers.ts (narrative condensed; no
claim depends on its text). -/
def generateRecoveryProof (partitionCertificates : List ConsensusCertificate)
    (originalShape dualShape : GeometricShape) (unified : UnifiedConsensus) : String :=
  "Dual Recovery Proof: " ++ originalShape.name ++ " via " ++ dualShape.name ++
    ", partitions " ++ toString partitionCertificates.length ++
    ", agreements " ++ toString unified.totalAgrees ++ "/" ++
    toString unified.totalVertices ++ "; consensus: " ++
    (if unified.valid then "ACHIEVED" else "FAILED")

/-- `createRecoveredCertificate` of betti-numbers.ts: the recovered
certificate references the original shape, concatenates all partition vote
lists, and asserts the reunified invariants `(β₀, β₁, β₂) = (1, 0, 0)`. -/
def createRecoveredCertificate (unified : UnifiedConsensus) (originalType : String)
    (partitionCertificates : List ConsensusCertificate) : Option ConsensusCertificate :=
  (getGeometricShape originalType).map (fun originalShape =>
    { geometricType := originalType,
      shape := originalShape,
      vertices := partitionCertificates.flatMap (fun cert => cert.vertices),
      agreesCount := unified.totalAgrees,
      requiredCount := ceilZ (qMul (mkRat unified.totalVertices 1) unified.unifiedThreshold),
      thresholdPercentage := unified.unifiedThreshold,
      valid := unified.valid,
      proof := "Recovered from " ++ toString partitionCertificates.length ++
        " partitions using dual mapping",
      bettiNumbers := some ⟨1, 0, 0⟩,
      partitionInfo := some (false, 1) })

/-- `createErrorCertificate` of the `DualPartitionRecovery` class: an empty
shell referencing the original shape.  It resolves `originalType` itself,
so an unknown identifier re-throws (`none`). -/
def createRecoveryErrorCertificate (originalType : String) (msg : String) :
    Option ConsensusCertificate :=
  (getGeometricShape originalType).map (fun originalShape =>
    { geometricType := originalType,
      shape := originalShape,
      vertices := [],
      agreesCount := 0,
      requiredCount := 0,
      thresholdPercentage := 0,
      valid := false,
      proof := "Recovery failed: " ++ msg })

/-- The `try` block of `recoverFromPartition` of betti-numbers.ts. -/
def tryRecoverFromPartition (partitionCertificates : List ConsensusCertificate)
    (originalType : String) : Except String DualRecoveryResult :=
  match validatePartitionCertificates partitionCertificates with
  | Except.error e => Except.error e
  | Except.ok _ =>
    match getGeometricShape originalType with
    | none => Except.error ("Unknown geometric type: " ++ originalType)
    | some originalShape =>
      match getDual originalShape with
      | none => Except.error ("No dual available for geometric type: " ++ originalType)
      | some dualShape =>
        match applyDualMapping partitionCertificates originalShape dualShape with
        | none => Except.error ("Unknown geometric type: " ++ originalType)
        | some unifiedConsensus =>
          match createRecoveredCertificate unifiedConsensus originalType
              partitionCertificates with
          | none => Except.error ("Unknown geometric type: " ++ originalType)
          | some recoveredCertificate =>
            Except.ok
              { success := true,
                recoveredCertificate := recoveredCertificate,
                recoveryProof := generateRecoveryProof partitionCertificates
                  originalShape dualShape unifiedConsensus,
                dualMappingOriginal := originalType,
                dualMappingDual := dualShape.type,
                thresholdMapping := calculateThresholdMapping originalShape dualShape }

/-- `recoverFromPartition` of betti-numbers.ts.  A failure inside the `try`
block is caught and turned into a `success = false` result around an empty
error-certificate shell; but the shell construction itself re-resolves
`originalType`, so for an unknown identifier the caught exception is
replaced by a new one that escapes (`Except.error`). -/
def recoverFromPartition (partitionCertificates : List ConsensusCertificate)
    (originalType : String) : Except String DualRecoveryResult :=
  match tryRecoverFromPartition partitionCertificates originalType with
  | Except.ok r => Except.ok r
  | Except.error e =>
    match createRecoveryErrorCertificate originalType e with
    | some recoveredCertificate =>
        Except.ok
          { success := false,
            recoveredCertificate := recoveredCertificate,
            recoveryProof := "Recovery failed: " ++ e,
            dualMappingOriginal := originalType,
            dualMappingDual := originalType,
            thresholdMapping := 0 }
    | none => Except.error ("Unknown geometric type: " ++ originalType)

/-!  ## Shared helper definitions and catalog lemmas  -/

/-- Placeholder shape used as a `getD` fallback in concrete statements. -/
def defaultShape : GeometricShape :=
  { type := "", name := "", vertices := 0, edges := 0, faces := 0, threshold := 0,
    isSelfDual := false, dimension := 0, context := "", description := "" }

instance : Inhabited GeometricShape := ⟨defaultShape⟩

/-- Convenience total lookup for concrete statements. -/
def shapeOf (t : String) : GeometricShape := (getGeometricShape t).getD defaultShape

theorem getGeometricShape_mem {t : String} {s : GeometricShape}
    (h : getGeometricShape t = some s) : s ∈ GEOMETRIC_SHAPES :=
  List.mem_of_find?_eq_some h

theorem getGeometricShape_type {t : String} {s : GeometricShape}
    (h : getGeometricShape t = some s) : s.type = t := by
  have := List.find?_some h
  exact eq_of_beq this

theorem catalog_self_lookup :
    ∀ s ∈ GEOMETRIC_SHAPES, getGeometricShape s.type = some s := by decide

theorem catalog_required_pos :
    ∀ s ∈ GEOMETRIC_SHAPES, 1 ≤ calculateRequiredAgreement s := by decide

theorem mkRat_natCast_one (n : ℕ) : mkRat (n : ℤ) 1 = (n : ℚ) := by
  rw [Rat.mkRat_one]
  push_cast
  rfl

theorem calculateRequiredAgreement_eq (s : GeometricShape) :
    calculateRequiredAgreement s = ⌈(s.vertices : ℚ) * s.threshold⌉ := by
  rw [calculateRequiredAgreement, ceilZ_eq, qMul_eq, mkRat_natCast_one]

theorem isValidForConsensus_iff (s : GeometricShape) (a : ℕ) :
    isValidForConsensus s a = true ↔ calculateRequiredAgreement s ≤ (a : ℤ) := by
  rw [isValidForConsensus]
  exact decide_eq_true_iff

/-- Unfolding of `verifyConsensus` on a known shape. -/
theorem verifyConsensus_known (votes : List DecisionVertex) (t d : String)
    (s : GeometricShape) (h : getGeometricShape t = some s) :
    verifyConsensus votes t d = Except.ok
      { certificate := createConsensusCertificate votes s d,
        success := (createConsensusCertificate votes s d).valid,
        message := if (createConsensusCertificate votes s d).valid then
          "Consensus achieved" else "Consensus failed" } := by
  unfold verifyConsensus
  rw [h]

/-!  ## Claims  -/

/-- C9: every shape in the fixed catalog whose dimension field equals 3
satisfies Euler's formula `V − E + F = 2` on its recorded vertex, edge and
face counts. -/
theorem c9_euler_formula :
    ∀ s ∈ GEOMETRIC_SHAPES, s.dimension = 3 →
      (s.vertices : ℤ) - (s.edges : ℤ) + (s.faces : ℤ) = 2 := by decide

/-- Witness for C9 at the tetrahedron entry: `4 − 6 + 4 = 2`. -/
theorem c9_euler_formula_witness :
    shapeOf "TETRAHEDRON" ∈ GEOMETRIC_SHAPES ∧
    (shapeOf "TETRAHEDRON").dimension = 3 ∧
    ((shapeOf "TETRAHEDRON").vertices : ℤ) - ((shapeOf "TETRAHEDRON").edges : ℤ) +
      ((shapeOf "TETRAHEDRON").faces : ℤ) = 2 :=
  ⟨by decide, by decide, c9_euler_formula _ (by decide) (by decide)⟩

/-- C1: for every catalog shape, `requiredAgreement = ⌈V × threshold⌉`, and
every certificate produced by `verifyConsensus` for a known shape counts
the agreeing votes and is valid iff that count reaches the required
count. -/
theorem c1_required_count_and_validity (votes : List DecisionVertex) (t : String)
    (s : GeometricShape) (d : String) (h : getGeometricShape t = some s) :
    calculateRequiredAgreement s = ⌈(s.vertices : ℚ) * s.threshold⌉ ∧
    ∃ r, verifyConsensus votes t d = Except.ok r ∧
      r.certificate.agreesCount = (votes.filter (fun v => v.agrees)).length ∧
      r.certificate.requiredCount = ⌈(s.vertices : ℚ) * s.threshold⌉ ∧
      (r.certificate.valid = true ↔
        r.certificate.requiredCount ≤ (r.certificate.agreesCount : ℤ)) := by
  refine ⟨calculateRequiredAgreement_eq s, ?_⟩
  refine ⟨_, verifyConsensus_known votes t d s h, ?_, ?_, ?_⟩
  · rfl
  · exact calculateRequiredAgreement_eq s
  · exact isValidForConsensus_iff s _

/-- Witness for C1: three votes (two agreeing) on the cube. -/
theorem c1_required_count_and_validity_witness :
    calculateRequiredAgreement (shapeOf "CUBE") =
      ⌈((shapeOf "CUBE").vertices : ℚ) * (shapeOf "CUBE").threshold⌉ ∧
    ∃ r, verifyConsensus
        [{ id := "a", name := "A", agrees := true },
         { id := "b", name := "B", agrees := true },
         { id := "c", name := "C", agrees := false }] "CUBE" "demo" = Except.ok r ∧
      r.certificate.agreesCount =
        (([{ id := "a", name := "A", agrees := true },
           { id := "b", name := "B", agrees := true },
           { id := "c", name := "C", agrees := false }] :
            List DecisionVertex).filter (fun v => v.agrees)).length ∧
      r.certificate.requiredCount =
        ⌈((shapeOf "CUBE").vertices : ℚ) * (shapeOf "CUBE").threshold⌉ ∧
      (r.certificate.valid = true ↔
        r.certificate.requiredCount ≤ (r.certificate.agreesCount : ℤ)) :=
  c1_required_count_and_validity _ "CUBE" _ "demo" (by decide)

/-- C8 counterexample: for the tetrahedron and an empty vote list the
certificate's required count is `⌈4 × 1⌉ = 4`, not 0 as the claim
states. -/
theorem c8_counterexample :
    ¬ ∀ r, verifyConsensus [] "TETRAHEDRON" "" = Except.ok r →
        r.certificate.requiredCount = 0 := by
  intro h
  exact absurd (h _ rfl) (by decide)

/-- C8 amended: for every known shape, an empty vote list produces a
certificate whose required count is `⌈V × threshold⌉` — which is positive
for every catalog shape, not 0 — and whose validity is `false`. -/
theorem c8_empty_votes (t : String) (s : GeometricShape) (d : String)
    (h : getGeometricShape t = some s) :
    ∃ r, verifyConsensus [] t d = Except.ok r ∧
      r.certificate.requiredCount = ⌈(s.vertices : ℚ) * s.threshold⌉ ∧
      0 < r.certificate.requiredCount ∧
      r.certificate.valid = false := by
  have hpos : 1 ≤ calculateRequiredAgreement s :=
    catalog_required_pos s (getGeometricShape_mem h)
  have hvalid : isValidForConsensus s 0 = false := by
    rw [Bool.eq_false_iff]
    intro hv
    have h2 := (isValidForConsensus_iff s 0).mp hv
    omega
  refine ⟨_, verifyConsensus_known [] t d s h, calculateRequiredAgreement_eq s, ?_, ?_⟩
  · show (0 : ℤ) < calculateRequiredAgreement s
    omega
  · exact hvalid

/-- Witness for C8 amended, at the tetrahedron. -/
theorem c8_empty_votes_witness :
    ∃ r, verifyConsensus [] "TETRAHEDRON" "w" = Except.ok r ∧
      r.certificate.requiredCount =
        ⌈((shapeOf "TETRAHEDRON").vertices : ℚ) * (shapeOf "TETRAHEDRON").threshold⌉ ∧
      0 < r.certificate.requiredCount ∧
      r.certificate.valid = false :=
  c8_empty_votes "TETRAHEDRON" _ "w" (by decide)

/-- C2 (code bug): for a shape identifier outside the catalog the
exception does escape `verifyConsensus` — the catch block's
`createErrorCertificate` re-resolves the unknown identifier and the
re-thrown `Unknown geometric type` error propagates to the caller, instead
of the claimed invalid zero-valued certificate. -/
theorem c2_unknown_shape_exception_escapes :
    verifyConsensus [] "UNKNOWN_SHAPE" "" =
      Except.error "Unknown geometric type: UNKNOWN_SHAPE" := by rfl

/-- C3 counterexample: for the cube (threshold 0.5, 6 faces) and its dual
octahedron (6 vertices) the code returns `0.5 × (6/6) = 0.5`, not the
claimed `6/6 = 1` clamped. -/
theorem c3_counterexample :
    (getGeometricShape "CUBE").map (fun s => (s.threshold, s.faces)) =
      some (mkRat 5 10, 6) ∧
    (getGeometricShape "OCTAHEDRON").map (fun s => s.vertices) = some 6 ∧
    mapThresholdViaDual (mkRat 5 10) "CUBE" "OCTAHEDRON" = some (mkRat 1 2) ∧
    mapThresholdViaDual (mkRat 5 10) "CUBE" "OCTAHEDRON" ≠
      some (clamp01 (qRatio 6 6)) := by
  refine ⟨by decide, by decide, by decide, by decide⟩

/-- C3 amended: `mapThresholdViaDual` leaves the threshold unchanged for a
self-dual original (identical identifiers; `getDual` maps a self-dual
shape to itself), and for distinct identifiers returns the *input
threshold multiplied by* `dualVertexCount / originalFaceCount`, clamped to
`[0, 1]`. -/
theorem c3_threshold_mapping (θ : ℚ) (o d : String) (so sd : GeometricShape)
    (ho : getGeometricShape o = some so) (hd : getGeometricShape d = some sd) :
    (so.isSelfDual = true → getDual so = some so) ∧
    (o = d → mapThresholdViaDual θ o d = some θ) ∧
    (o ≠ d → mapThresholdViaDual θ o d =
      some (max 0 (min 1 (θ * ((sd.vertices : ℚ) / (so.faces : ℚ)))))) := by
  refine ⟨fun hsd => by rw [getDual, if_pos hsd], ?_, ?_⟩
  · intro he
    simp only [mapThresholdViaDual, ho, hd]
    rw [if_pos he]
  · intro hne
    simp only [mapThresholdViaDual, ho, hd]
    rw [if_neg hne, clamp01_eq, qMul_eq, qRatio_eq]

/-- Witness for C3 amended: cube → octahedron at the cube's threshold. -/
theorem c3_threshold_mapping_witness :
    ((shapeOf "CUBE").isSelfDual = true → getDual (shapeOf "CUBE") = some (shapeOf "CUBE")) ∧
    ("CUBE" = "OCTAHEDRON" →
      mapThresholdViaDual (mkRat 5 10) "CUBE" "OCTAHEDRON" = some (mkRat 5 10)) ∧
    ("CUBE" ≠ "OCTAHEDRON" →
      mapThresholdViaDual (mkRat 5 10) "CUBE" "OCTAHEDRON" =
        some (max 0 (min 1 ((mkRat 5 10) *
          (((shapeOf "OCTAHEDRON").vertices : ℚ) / ((shapeOf "CUBE").faces : ℚ)))))) :=
  c3_threshold_mapping (mkRat 5 10) "CUBE" "OCTAHEDRON" _ _ (by decide) (by decide)

/-- Behaviour of the best-match fold of `decomposeGeometricType`: starting
from `acc`, the fold either keeps `acc` (and then no entry key that is
`≤ k` exceeds `acc.1`) or lands on a list entry with the largest key
`≤ k`. -/
theorem selectFold_spec (k : ℕ) (l : List (ℕ × String)) :
    ∀ acc : ℕ × String,
      (l.foldl (fun best e => if e.1 ≤ k ∧ best.1 < e.1 then e else best) acc = acc ∧
        ∀ e ∈ l, e.1 ≤ k → e.1 ≤ acc.1) ∨
      (∃ e ∈ l, e.1 ≤ k ∧
        l.foldl (fun best e => if e.1 ≤ k ∧ best.1 < e.1 then e else best) acc = e ∧
        acc.1 < e.1 ∧ ∀ e2 ∈ l, e2.1 ≤ k → e2.1 ≤ e.1) := by
  induction l with
  | nil => intro acc; exact Or.inl ⟨rfl, by simp⟩
  | cons e rest ih =>
    intro acc
    simp only [List.foldl_cons]
    by_cases hc : e.1 ≤ k ∧ acc.1 < e.1
    · rw [if_pos hc]
      rcases ih e with ⟨hfold, hmax⟩ | ⟨f, hf, hfk, hfold, hlt, hmax⟩
      · refine Or.inr ⟨e, List.mem_cons_self e rest, hc.1, hfold, hc.2, ?_⟩
        intro e2 he2 hk2
        rcases List.mem_cons.mp he2 with he2 | he2
        · exact le_of_eq (congrArg Prod.fst he2)
        · exact hmax e2 he2 hk2
      · refine Or.inr ⟨f, List.mem_cons_of_mem e hf, hfk, hfold, hc.2.trans hlt, ?_⟩
        intro e2 he2 hk2
        rcases List.mem_cons.mp he2 with he2 | he2
        · rw [he2]; exact hlt.le
        · exact hmax e2 he2 hk2
    · rw [if_neg hc]
      have hek : e.1 ≤ k → e.1 ≤ acc.1 := by
        intro hk
        by_contra hgt
        exact hc ⟨hk, lt_of_not_le hgt⟩
      rcases ih acc with ⟨hfold, hmax⟩ | ⟨f, hf, hfk, hfold, hlt, hmax⟩
      · refine Or.inl ⟨hfold, ?_⟩
        intro e2 he2 hk2
        rcases List.mem_cons.mp he2 with he2 | he2
        · rw [he2]; exact hek (he2 ▸ hk2)
        · exact hmax e2 he2 hk2
      · refine Or.inr ⟨f, List.mem_cons_of_mem e hf, hfk, hfold, hlt, ?_⟩
        intro e2 he2 hk2
        rcases List.mem_cons.mp he2 with he2 | he2
        · rw [he2]; exact le_of_lt (lt_of_le_of_lt (hek (he2 ▸ hk2)) hlt)
        · exact hmax e2 he2 hk2

theorem catalog_table_isSome :
    ∀ s ∈ GEOMETRIC_SHAPES, (decompositionTableOf s.type).isSome = true := by decide

theorem catalog_table_keys_pos :
    ∀ s ∈ GEOMETRIC_SHAPES,
      ∀ e ∈ (decompositionTableOf s.type).getD [], 0 < e.1 := by decide

/-- C7 counterexample: for the 600-cell and 21 pieces, 21 exceeds every
key of the shape's decomposition table, yet the selection still returns
the largest-key entry `POINT` instead of falling through to the generic
`⌊V / pieceCount⌋` rule, which would give `TETRAHEDRON`
(`⌊120 / 21⌋ = 5`). -/
theorem c7_counterexample :
    (∀ e ∈ (decompositionTableOf "SIX_HUNDRED_CELL").getD [], e.1 < 21) ∧
    decomposeGeometricType "SIX_HUNDRED_CELL" 21 = some "POINT" ∧
    getDefaultDecomposition "SIX_HUNDRED_CELL" 21 = some "TETRAHEDRON" ∧
    decomposeGeometricType "SIX_HUNDRED_CELL" 21 ≠
      getDefaultDecomposition "SIX_HUNDRED_CELL" 21 := by decide

/-- C7 amended: for every catalog shape the decomposition table has an
entry, so the generic rule is never consulted; the decomposed shape is the
table entry with the largest key `≤` the piece count when one exists
(also when the piece count exceeds every key), and the fallback `POINT`
when every key exceeds the piece count. -/
theorem c7_table_selection (t : String) (s : GeometricShape) (k : ℕ)
    (h : getGeometricShape t = some s) :
    ∃ entries, decompositionTableOf t = some entries ∧
      decomposeGeometricType t k = some (selectDecomposition entries k) ∧
      ((∃ e ∈ entries, e.1 ≤ k ∧ selectDecomposition entries k = e.2 ∧
          ∀ e2 ∈ entries, e2.1 ≤ k → e2.1 ≤ e.1) ∨
        (selectDecomposition entries k = "POINT" ∧ ∀ e ∈ entries, ¬ e.1 ≤ k)) := by
  have hmem := getGeometricShape_mem h
  have htype := getGeometricShape_type h
  have hsome := catalog_table_isSome s hmem
  rw [htype] at hsome
  obtain ⟨entries, hent⟩ := Option.isSome_iff_exists.mp hsome
  have hpos : ∀ e ∈ entries, 0 < e.1 := by
    have hp := catalog_table_keys_pos s hmem
    rw [htype, hent] at hp
    simpa using hp
  refine ⟨entries, hent, by rw [decomposeGeometricType, hent], ?_⟩
  rcases selectFold_spec k entries (0, "POINT") with ⟨hfold, hmax⟩ |
      ⟨e, he, hek, hfold, _, hmax⟩
  · refine Or.inr ⟨by rw [selectDecomposition, hfold], ?_⟩
    intro e he hk
    have h1 := hmax e he hk
    have h2 := hpos e he
    omega
  · exact Or.inl ⟨e, he, hek, by rw [selectDecomposition, hfold], hmax⟩

/-- Witness for C7 amended: the cube with 5 pieces selects the key-4 entry
`TRIANGLE`. -/
theorem c7_table_selection_witness :
    (∃ entries, decompositionTableOf "CUBE" = some entries ∧
      decomposeGeometricType "CUBE" 5 = some (selectDecomposition entries 5) ∧
      ((∃ e ∈ entries, e.1 ≤ 5 ∧ selectDecomposition entries 5 = e.2 ∧
          ∀ e2 ∈ entries, e2.1 ≤ 5 → e2.1 ≤ e.1) ∨
        (selectDecomposition entries 5 = "POINT" ∧ ∀ e ∈ entries, ¬ e.1 ≤ 5))) ∧
    decomposeGeometricType "CUBE" 5 = some "TRIANGLE" :=
  ⟨c7_table_selection "CUBE" (shapeOf "CUBE") 5 (by decide), by decide⟩

/-- Any of the three bad-input conditions makes
`validatePartitionCertificates` raise an error. -/
theorem validate_error_of_bad (pcs : List ConsensusCertificate)
    (hbad : pcs = [] ∨ (∃ c ∈ pcs, c.valid = false) ∨
      (∃ c ∈ pcs, ∃ c2 ∈ pcs, c.geometricType ≠ c2.geometricType)) :
    ∃ e, validatePartitionCertificates pcs = Except.error e := by
  match pcs with
  | [] => exact ⟨_, rfl⟩
  | first :: rest =>
    by_cases hinv : ∃ c ∈ first :: rest, c.valid = false
    · obtain ⟨c, hc, hcv⟩ := hinv
      have hmem : c ∈ (first :: rest).filter (fun cert => !cert.valid) :=
        List.mem_filter.mpr ⟨hc, by simp [hcv]⟩
      have hlen : 0 < ((first :: rest).filter (fun cert => !cert.valid)).length :=
        List.length_pos.mpr (List.ne_nil_of_mem hmem)
      exact ⟨_, by simp only [validatePartitionCertificates]; rw [if_pos hlen]⟩
    · have hval : ∀ c ∈ first :: rest, c.valid = true := by
        intro c hc
        by_contra hne
        exact hinv ⟨c, hc, Bool.not_eq_true c.valid ▸ hne⟩
      rcases hbad with hbad | hbad | hbad
      · exact absurd hbad (List.cons_ne_nil first rest)
      · obtain ⟨c, hc, hcv⟩ := hbad
        rw [hval c hc] at hcv
        exact absurd hcv (by decide)
      · obtain ⟨c, hc, c2, hc2, hne⟩ := hbad
        have hw : ∃ w ∈ first :: rest, w.geometricType ≠ first.geometricType := by
          by_cases h1 : c.geometricType = first.geometricType
          · exact ⟨c2, hc2, fun hh => hne (h1.trans hh.symm)⟩
          · exact ⟨c, hc, h1⟩
        obtain ⟨w, hwmem, hwne⟩ := hw
        have hmem2 : w ∈ (first :: rest).filter
            (fun cert => cert.geometricType ≠ first.geometricType) :=
          List.mem_filter.mpr ⟨hwmem, by simp [hwne]⟩
        have hlen2 : 0 < ((first :: rest).filter
            (fun cert => cert.geometricType ≠ first.geometricType)).length :=
          List.length_pos.mpr (List.ne_nil_of_mem hmem2)
        have hlen1 : ((first :: rest).filter (fun cert => !cert.valid)).length = 0 := by
          rw [List.length_eq_zero, List.filter_eq_nil_iff]
          intro c hc
          simp [hval c hc]
        refine ⟨"Inconsistent geometric types in partition certificates", ?_⟩
        simp only [validatePartitionCertificates]
        rw [if_neg (by omega), if_pos hlen2]

/-- C4 counterexample: recovery on an empty piece list with an unknown
original shape identifier produces no result at all — the shell
construction re-resolves the identifier and the exception escapes — so
the claim's universally-quantified shell guarantee fails. -/
theorem c4_counterexample :
    recoverFromPartition [] "NOT_A_SHAPE" =
      Except.error "Unknown geometric type: NOT_A_SHAPE" ∧
    ¬ ∃ res, recoverFromPartition [] "NOT_A_SHAPE" = Except.ok res := by
  refine ⟨rfl, ?_⟩
  rintro ⟨res, h⟩
  rw [show recoverFromPartition [] "NOT_A_SHAPE" =
      Except.error "Unknown geometric type: NOT_A_SHAPE" from rfl] at h
  exact Except.noConfusion h

/-- C4 amended: provided the original shape identifier is in the catalog,
every recovery call whose piece list is empty, contains an invalid piece
certificate, or mixes two different shape identifiers returns
`success = false` together with an empty certificate shell (no votes,
zero counts, invalid). -/
theorem c4_failed_recovery (pcs : List ConsensusCertificate) (t : String)
    (s : GeometricShape) (hs : getGeometricShape t = some s)
    (hbad : pcs = [] ∨ (∃ c ∈ pcs, c.valid = false) ∨
      (∃ c ∈ pcs, ∃ c2 ∈ pcs, c.geometricType ≠ c2.geometricType)) :
    ∃ res, recoverFromPartition pcs t = Except.ok res ∧ res.success = false ∧
      res.recoveredCertificate.vertices = [] ∧
      res.recoveredCertificate.agreesCount = 0 ∧
      res.recoveredCertificate.requiredCount = 0 ∧
      res.recoveredCertificate.valid = false := by
  obtain ⟨e, he⟩ := validate_error_of_bad pcs hbad
  have htry : tryRecoverFromPartition pcs t = Except.error e := by
    simp only [tryRecoverFromPartition, he]
  refine ⟨{ success := false,
            recoveredCertificate :=
              { geometricType := t, shape := s, vertices := [], agreesCount := 0,
                requiredCount := 0, thresholdPercentage := 0, valid := false,
                proof := "Recovery failed: " ++ e },
            recoveryProof := "Recovery failed: " ++ e,
            dualMappingOriginal := t, dualMappingDual := t, thresholdMapping := 0 },
          ?_, rfl, rfl, rfl, rfl, rfl⟩
  simp only [recoverFromPartition, htry, createRecoveryErrorCertificate, hs,
    Option.map_some']

/-- Witness for C4 amended: the empty piece list over the cube. -/
theorem c4_failed_recovery_witness :
    ∃ res, recoverFromPartition [] "CUBE" = Except.ok res ∧ res.success = false ∧
      res.recoveredCertificate.vertices = [] ∧
      res.recoveredCertificate.agreesCount = 0 ∧
      res.recoveredCertificate.requiredCount = 0 ∧
      res.recoveredCertificate.valid = false :=
  c4_failed_recovery [] "CUBE" (shapeOf "CUBE") (by decide) (Or.inl rfl)

/-- A successful recovery result can only come out of the `try` block. -/
theorem recover_ok_of_success (pcs : List ConsensusCertificate) (t : String)
    (res : DualRecoveryResult) (h : recoverFromPartition pcs t = Except.ok res)
    (hs : res.success = true) :
    tryRecoverFromPartition pcs t = Except.ok res := by
  rcases htry : tryRecoverFromPartition pcs t with e | r
  · rcases hcert : createRecoveryErrorCertificate t e with _ | c
    · simp only [recoverFromPartition, htry, hcert] at h
      exact Except.noConfusion h
    · simp only [recoverFromPartition, htry, hcert] at h
      have hres := Except.ok.inj h
      rw [← hres] at hs
      exact absurd hs Bool.false_ne_true
  · simp only [recoverFromPartition, htry] at h
    exact h

/-- Dissection of a successful `try` block run. -/
theorem tryRecover_ok_elim (pcs : List ConsensusCertificate) (t : String)
    (res : DualRecoveryResult) (h : tryRecoverFromPartition pcs t = Except.ok res) :
    ∃ s ds u, getGeometricShape t = some s ∧ getDual s = some ds ∧
      applyDualMapping pcs s ds = some u ∧
      createRecoveredCertificate u t pcs = some res.recoveredCertificate ∧
      res.success = true := by
  rcases hv : validatePartitionCertificates pcs with e | u0
  · simp only [tryRecoverFromPartition, hv] at h
    exact Except.noConfusion h
  rcases hsh : getGeometricShape t with _ | s
  · simp only [tryRecoverFromPartition, hv, hsh] at h
    exact Except.noConfusion h
  rcases hd : getDual s with _ | ds
  · simp only [tryRecoverFromPartition, hv, hsh, hd] at h
    exact Except.noConfusion h
  rcases hu : applyDualMapping pcs s ds with _ | u
  · simp only [tryRecoverFromPartition, hv, hsh, hd, hu] at h
    exact Except.noConfusion h
  rcases hc : createRecoveredCertificate u t pcs with _ | rc
  · simp only [tryRecoverFromPartition, hv, hsh, hd, hu, hc] at h
    exact Except.noConfusion h
  simp only [tryRecoverFromPartition, hv, hsh, hd, hu, hc] at h
  have hres := Except.ok.inj h
  refine ⟨s, ds, u, rfl, hd, hu, ?_, ?_⟩
  · rw [← hres]
    exact hc
  · rw [← hres]

/-- Field content of `applyDualMapping`. -/
theorem applyDualMapping_sums (pcs : List ConsensusCertificate)
    (s ds : GeometricShape) (u : UnifiedConsensus)
    (h : applyDualMapping pcs s ds = some u) :
    u.totalAgrees = (pcs.map (fun c => c.agreesCount)).sum ∧
    u.totalVertices = (pcs.map (fun c => c.vertices.length)).sum := by
  rcases hm : mapThresholdViaDual s.threshold s.type ds.type with _ | θ <;>
    simp only [applyDualMapping, hm, Option.map_some', Option.map_none'] at h
  · exact Option.noConfusion h
  · rw [← Option.some.inj h]
    exact ⟨rfl, rfl⟩

/-- C6: every successful recovery references the original shape identifier
(with its catalog entry as the certificate's shape snapshot), carries the
concatenation of all piece vote lists, sums the pieces' agreement counts,
and asserts the reunified invariants `(β₀, β₁, β₂) = (1, 0, 0)` instead of
recomputing connectivity. -/
theorem c6_recovered_certificate (pcs : List ConsensusCertificate) (t : String)
    (res : DualRecoveryResult) (h : recoverFromPartition pcs t = Except.ok res)
    (hsucc : res.success = true) :
    res.recoveredCertificate.geometricType = t ∧
    getGeometricShape t = some res.recoveredCertificate.shape ∧
    res.recoveredCertificate.vertices = pcs.flatMap (fun c => c.vertices) ∧
    res.recoveredCertificate.agreesCount = (pcs.map (fun c => c.agreesCount)).sum ∧
    res.recoveredCertificate.bettiNumbers = some ⟨1, 0, 0⟩ := by
  obtain ⟨s, ds, u, hsh, hd, hu, hcert, _⟩ :=
    tryRecover_ok_elim pcs t res (recover_ok_of_success pcs t res h hsucc)
  rw [createRecoveredCertificate, hsh, Option.map_some'] at hcert
  have hrc := Option.some.inj hcert
  obtain ⟨hagree, _⟩ := applyDualMapping_sums pcs s ds u hu
  rw [← hrc]
  exact ⟨rfl, by rw [hsh], rfl, hagree, rfl⟩

/-- Shared sample data for concrete recovery statements: two agreeing
votes inside one valid piece certificate that carries the `TRIANGLE`
identifier. -/
def samplePieceCert : ConsensusCertificate :=
  { geometricType := "TRIANGLE",
    shape := shapeOf "TRIANGLE",
    vertices := [{ id := "a", name := "A", agrees := true },
                 { id := "b", name := "B", agrees := true }],
    agreesCount := 2,
    requiredCount := 2,
    thresholdPercentage := mkRat 1 1,
    valid := true,
    proof := "piece" }

/-- The concrete recovery of `samplePieceCert` against the cube. -/
def sampleRecovery : DualRecoveryResult :=
  (recoverFromPartition [samplePieceCert] "CUBE").toOption.getD
    { success := false, recoveredCertificate := samplePieceCert,
      recoveryProof := "", dualMappingOriginal := "", dualMappingDual := "",
      thresholdMapping := 0 }

/-- Witness for C6 on the concrete sample recovery. -/
theorem c6_recovered_certificate_witness :
    sampleRecovery.recoveredCertificate.geometricType = "CUBE" ∧
    getGeometricShape "CUBE" = some sampleRecovery.recoveredCertificate.shape ∧
    sampleRecovery.recoveredCertificate.vertices =
      [samplePieceCert].flatMap (fun c => c.vertices) ∧
    sampleRecovery.recoveredCertificate.agreesCount =
      ([samplePieceCert].map (fun c => c.agreesCount)).sum ∧
    sampleRecovery.recoveredCertificate.bettiNumbers = some ⟨1, 0, 0⟩ :=
  c6_recovered_certificate [samplePieceCert] "CUBE" sampleRecovery (by rfl) (by rfl)

/-- Good piece lists pass `validatePartitionCertificates`. -/
theorem validate_ok_of_good (pcs : List ConsensusCertificate) (T : String)
    (hne : pcs ≠ []) (hval : ∀ c ∈ pcs, c.valid = true)
    (htype : ∀ c ∈ pcs, c.geometricType = T) :
    validatePartitionCertificates pcs = Except.ok () := by
  match pcs with
  | [] => exact absurd rfl hne
  | first :: rest =>
    have hlen1 : ((first :: rest).filter (fun cert => !cert.valid)).length = 0 := by
      rw [List.length_eq_zero, List.filter_eq_nil_iff]
      intro c hc
      simp [hval c hc]
    have hlen2 : ((first :: rest).filter
        (fun cert => cert.geometricType ≠ first.geometricType)).length = 0 := by
      rw [List.length_eq_zero, List.filter_eq_nil_iff]
      intro c hc
      simp [htype c hc, htype first (List.mem_cons_self first rest)]
    simp only [validatePartitionCertificates]
    rw [if_neg (by omega), if_neg (by omega)]

theorem getDual_mem {s d : GeometricShape} (hs : s ∈ GEOMETRIC_SHAPES)
    (h : getDual s = some d) : d ∈ GEOMETRIC_SHAPES := by
  rw [getDual] at h
  by_cases hsd : s.isSelfDual
  · rw [if_pos hsd] at h
    rw [← Option.some.inj h]
    exact hs
  · rw [if_neg hsd] at h
    rcases hdd : s.dual with _ | dd <;> rw [hdd] at h
    · exact Option.noConfusion h
    · exact getGeometricShape_mem h

/-- C10: recovery validates the piece certificates only against each
other, never against the `originalShapeId` argument — any non-empty list
of individually valid piece certificates sharing one identifier `T`
recovers successfully against any catalog original that has a dual, using
the original's catalog data, with no requirement that `T` equal the
original identifier. -/
theorem c10_ignores_original_argument (pcs : List ConsensusCertificate)
    (t T : String) (s d : GeometricShape)
    (hne : pcs ≠ []) (hval : ∀ c ∈ pcs, c.valid = true)
    (htype : ∀ c ∈ pcs, c.geometricType = T)
    (hs : getGeometricShape t = some s) (hd : getDual s = some d) :
    ∃ res, recoverFromPartition pcs t = Except.ok res ∧ res.success = true ∧
      res.recoveredCertificate.shape = s ∧
      res.recoveredCertificate.geometricType = t := by
  have hvok := validate_ok_of_good pcs T hne hval htype
  have hsmem := getGeometricShape_mem hs
  have hdmem := getDual_mem hsmem hd
  have h1 := catalog_self_lookup s hsmem
  have h2 := catalog_self_lookup d hdmem
  obtain ⟨u, hu⟩ : ∃ u, applyDualMapping pcs s d = some u := by
    simp only [applyDualMapping, mapThresholdViaDual, h1, h2, Option.map_some']
    exact ⟨_, rfl⟩
  obtain ⟨rc, hrc⟩ : ∃ rc, createRecoveredCertificate u t pcs = some rc := by
    rw [createRecoveredCertificate, hs, Option.map_some']
    exact ⟨_, rfl⟩
  have hshape : rc.shape = s ∧ rc.geometricType = t := by
    rw [createRecoveredCertificate, hs, Option.map_some'] at hrc
    rw [← Option.some.inj hrc]
    exact ⟨rfl, rfl⟩
  refine ⟨{ success := true, recoveredCertificate := rc,
            recoveryProof := generateRecoveryProof pcs s d u,
            dualMappingOriginal := t, dualMappingDual := d.type,
            thresholdMapping := calculateThresholdMapping s d },
          ?_, rfl, hshape.1, hshape.2⟩
  simp only [recoverFromPartition, tryRecoverFromPartition, hvok, hs, hd, hu, hrc]

/-- Witness for C10: a valid `TRIANGLE`-labelled piece certificate
recovered against the cube (`TRIANGLE ≠ CUBE`), succeeding with the cube's
catalog entry. -/
theorem c10_ignores_original_argument_witness :
    (∃ res, recoverFromPartition [samplePieceCert] "CUBE" = Except.ok res ∧
      res.success = true ∧
      res.recoveredCertificate.shape = shapeOf "CUBE" ∧
      res.recoveredCertificate.geometricType = "CUBE") ∧
    "TRIANGLE" ≠ "CUBE" :=
  ⟨c10_ignores_original_argument [samplePieceCert] "CUBE" "TRIANGLE"
      (shapeOf "CUBE") (shapeOf "OCTAHEDRON")
      (by decide) (by decide) (by decide) (by decide) (by decide),
    by decide⟩

/-!  ## DFS theory for the consensus graph (claim C5)

The agreement-derived consensus graph connects two distinct vote indices
exactly when the two votes carry the same boolean agreement value, so its
connected components are the (at most two) agreement classes.  The
following lemmas establish that the embedded DFS component count computes
1 on a single class and 2 on two classes.  -/

/-- A vertex already visited stays visited through `dfsVisit`. -/
theorem dfsVisit_mono (n : ℕ) (adj : ℕ → ℕ → Bool) :
    ∀ (fuel v : ℕ) (vis : ℕ → Bool) (w : ℕ), vis w = true →
      dfsVisit n adj fuel v vis w = true := by
  intro fuel
  induction fuel with
  | zero =>
    intro v vis w h
    simpa [dfsVisit] using h
  | succ f ih =>
    intro v vis w h
    simp only [dfsVisit]
    suffices H : ∀ (l : List ℕ) (vis2 : ℕ → Bool), vis2 w = true →
        (l.foldl (fun vis i => if adj v i && !vis i then dfsVisit n adj f i vis else vis)
          vis2) w = true by
      refine H (List.range n) _ ?_
      by_cases hw : w = v <;> simp [hw, h]
    intro l
    induction l with
    | nil =>
      intro vis2 h2
      simpa using h2
    | cons i rest ihl =>
      intro vis2 h2
      simp only [List.foldl_cons]
      by_cases hc : adj v i && !vis2 i
      · rw [if_pos hc]
        exact ihl _ (ih i vis2 w h2)
      · rw [if_neg hc]
        exact ihl vis2 h2

/-- The scanning fold inside `dfsVisit` also preserves visited vertices. -/
theorem dfsFold_mono (n : ℕ) (adj : ℕ → ℕ → Bool) (f v : ℕ) :
    ∀ (l : List ℕ) (vis : ℕ → Bool) (w : ℕ), vis w = true →
      (l.foldl (fun vis i => if adj v i && !vis i then dfsVisit n adj f i vis else vis)
        vis) w = true := by
  intro l
  induction l with
  | nil =>
    intro vis w h
    simpa using h
  | cons i rest ihl =>
    intro vis w h
    simp only [List.foldl_cons]
    by_cases hc : adj v i && !vis i
    · rw [if_pos hc]
      exact ihl _ w (dfsVisit_mono n adj f i vis w h)
    · rw [if_neg hc]
      exact ihl vis w h

/-- Upper bound: a DFS started inside a predicate closed under adjacency
never leaves it. -/
theorem dfsVisit_subset (n : ℕ) (adj : ℕ → ℕ → Bool) (P : ℕ → Prop)
    (hP : ∀ a b, P a → adj a b = true → P b) :
    ∀ (fuel v : ℕ) (vis : ℕ → Bool), P v → (∀ u, vis u = true → P u) →
      ∀ w, dfsVisit n adj fuel v vis w = true → P w := by
  intro fuel
  induction fuel with
  | zero =>
    intro v vis _ hvis w hw
    exact hvis w (by simpa [dfsVisit] using hw)
  | succ f ih =>
    intro v vis hv hvis w hw
    simp only [dfsVisit] at hw
    suffices H : ∀ (l : List ℕ) (vis2 : ℕ → Bool), (∀ u, vis2 u = true → P u) →
        ∀ w, (l.foldl (fun vis i => if adj v i && !vis i then dfsVisit n adj f i vis
          else vis) vis2) w = true → P w by
      refine H (List.range n) _ ?_ w hw
      intro u hu
      by_cases huv : u = v
      · rw [huv]; exact hv
      · refine hvis u ?_
        simpa [huv] using hu
    intro l
    induction l with
    | nil =>
      intro vis2 hvis2 w hw
      exact hvis2 w (by simpa using hw)
    | cons i rest ihl =>
      intro vis2 hvis2 w hw
      simp only [List.foldl_cons] at hw
      by_cases hc : adj v i && !vis2 i
      · rw [if_pos hc] at hw
        refine ihl _ ?_ w hw
        intro u hu
        have hPi : P i := hP v i hv ((Bool.and_eq_true _ _).mp hc).1
        exact ih i vis2 hPi hvis2 u hu
      · rw [if_neg hc] at hw
        exact ihl vis2 hvis2 w hw

/-- A DFS call with fuel marks its start vertex. -/
theorem dfsVisit_marks_self (n : ℕ) (adj : ℕ → ℕ → Bool) (f v : ℕ)
    (vis : ℕ → Bool) : dfsVisit n adj (f + 1) v vis v = true := by
  simp only [dfsVisit]
  apply dfsFold_mono
  simp

/-- A DFS call with fuel at least 2 marks every adjacent vertex. -/
theorem dfsVisit_marks_adjacent (n : ℕ) (adj : ℕ → ℕ → Bool) :
    ∀ (fuel v w : ℕ) (vis : ℕ → Bool), 2 ≤ fuel → w < n → adj v w = true →
      dfsVisit n adj fuel v vis w = true := by
  intro fuel v w vis hf hw hadj
  match fuel, hf with
  | f + 1, hf =>
    obtain ⟨g, rfl⟩ : ∃ g, f = g + 1 := ⟨f - 1, by omega⟩
    simp only [dfsVisit]
    suffices H : ∀ (l : List ℕ) (vis2 : ℕ → Bool), w ∈ l →
        (l.foldl (fun vis i => if adj v i && !vis i then dfsVisit n adj (g + 1) i vis
          else vis) vis2) w = true by
      exact H (List.range n) _ (List.mem_range.mpr hw)
    intro l
    induction l with
    | nil =>
      intro vis2 hmem
      exact absurd hmem (List.not_mem_nil w)
    | cons i rest ihl =>
      intro vis2 hmem
      simp only [List.foldl_cons]
      rcases List.mem_cons.mp hmem with rfl | hmem2
      · by_cases hc : adj v w && !vis2 w
        · rw [if_pos hc]
          exact dfsFold_mono n adj (g + 1) v rest _ w
            (dfsVisit_marks_self n adj g w vis2)
        · rw [if_neg hc]
          have hvw : vis2 w = true := by
            simp [hadj] at hc
            exact hc
          exact dfsFold_mono n adj (g + 1) v rest vis2 w hvw
      · by_cases hc : adj v i && !vis2 i
        · rw [if_pos hc]
          exact ihl _ hmem2
        · rw [if_neg hc]
          exact ihl _ hmem2

/-- When the vertex loop finds every index already visited, the component
count does not change. -/
theorem ccLoop_all_visited (n : ℕ) (adj : ℕ → ℕ → Bool) :
    ∀ (l : List ℕ) (vis : ℕ → Bool) (c : ℕ),
      (∀ i ∈ l, vis i = true) → ccLoop n adj l vis c = c := by
  intro l
  induction l with
  | nil => intro vis c _; rfl
  | cons i rest ihl =>
    intro vis c hall
    simp only [ccLoop]
    rw [if_pos (hall i (List.mem_cons_self i rest))]
    exact ihl vis c (fun j hj => hall j (List.mem_cons_of_mem _ hj))

/-- On a clique-of-classes adjacency, a DFS from `v` with fuel `n` marks
the whole class of `v`. -/
theorem dfsVisit_class_cover (n : ℕ) (adj : ℕ → ℕ → Bool) (cls : ℕ → Bool)
    (hadj : ∀ a b, adj a b = true ↔ (a < n ∧ b < n ∧ a ≠ b ∧ cls a = cls b))
    (v : ℕ) (hv : v < n) (vis : ℕ → Bool) :
    ∀ w, w < n → cls w = cls v → dfsVisit n adj n v vis w = true := by
  intro w hw hcw
  by_cases hwv : w = v
  · obtain ⟨m, rfl⟩ : ∃ m, n = m + 1 := ⟨n - 1, by omega⟩
    rw [hwv]
    exact dfsVisit_marks_self (m + 1) adj m v vis
  · have hadjvw : adj v w = true :=
      (hadj v w).mpr ⟨hv, hw, fun he => hwv he.symm, hcw.symm⟩
    exact dfsVisit_marks_adjacent n adj n v w vis (by omega) hw hadjvw

/-- On a clique-of-classes adjacency, a DFS from `v` marks only the class
of `v` (beyond what was already visited). -/
theorem dfsVisit_class_only (n : ℕ) (adj : ℕ → ℕ → Bool) (cls : ℕ → Bool)
    (hadj : ∀ a b, adj a b = true ↔ (a < n ∧ b < n ∧ a ≠ b ∧ cls a = cls b))
    (fuel v : ℕ) (vis : ℕ → Bool)
    (hvis : ∀ u, vis u = true → (u = v ∨ (u < n ∧ cls u = cls v))) :
    ∀ w, dfsVisit n adj fuel v vis w = true →
      (w = v ∨ (w < n ∧ cls w = cls v)) := by
  refine dfsVisit_subset n adj (fun u => u = v ∨ (u < n ∧ cls u = cls v)) ?_
    fuel v vis (Or.inl rfl) hvis
  intro a b hPa hab
  obtain ⟨_, hb, _, hcab⟩ := (hadj a b).mp hab
  rcases hPa with rfl | ⟨_, hca⟩
  · exact Or.inr ⟨hb, hcab.symm⟩
  · exact Or.inr ⟨hb, hcab ▸ hca⟩

/-- The counting loop adds exactly one component when the visited set is
exactly one agreement class and the remaining indices contain a vertex of
the other class. -/
theorem ccLoop_one_more (n : ℕ) (adj : ℕ → ℕ → Bool) (cls : ℕ → Bool)
    (hadj : ∀ a b, adj a b = true ↔ (a < n ∧ b < n ∧ a ≠ b ∧ cls a = cls b))
    (c0 : Bool) :
    ∀ (l : List ℕ) (vis : ℕ → Bool) (c : ℕ),
      (∀ i ∈ l, i < n) →
      (∀ w, vis w = true ↔ (w < n ∧ cls w = c0)) →
      (∃ i ∈ l, cls i ≠ c0) →
      ccLoop n adj l vis c = c + 1 := by
  intro l
  induction l with
  | nil =>
    intro vis c _ _ hex
    obtain ⟨i, hi, _⟩ := hex
    exact absurd hi (List.not_mem_nil i)
  | cons i rest ihl =>
    intro vis c hlt hchar hex
    simp only [ccLoop]
    by_cases hci : cls i = c0
    · have hvi : vis i = true :=
        (hchar i).mpr ⟨hlt i (List.mem_cons_self i rest), hci⟩
      rw [if_pos hvi]
      refine ihl vis c (fun j hj => hlt j (List.mem_cons_of_mem _ hj)) hchar ?_
      obtain ⟨w, hw, hwne⟩ := hex
      rcases List.mem_cons.mp hw with rfl | hw2
      · exact absurd hci hwne
      · exact ⟨w, hw2, hwne⟩
    · have hvi : ¬ vis i = true := by
        intro hb
        exact hci ((hchar i).mp hb).2
      rw [if_neg hvi]
      refine ccLoop_all_visited n adj rest _ (c + 1) ?_
      intro w hw
      have hwn : w < n := hlt w (List.mem_cons_of_mem _ hw)
      by_cases hcw : cls w = c0
      · exact dfsVisit_mono n adj n i vis w ((hchar w).mpr ⟨hwn, hcw⟩)
      · have hwi : cls w = cls i := by
          cases hb : cls w <;> cases hb2 : cls i <;> cases hb0 : c0 <;>
            simp_all
        exact dfsVisit_class_cover n adj cls hadj i
          (hlt i (List.mem_cons_self i rest)) vis w hwn hwi

/-- One agreement class: the DFS component count is 1. -/
theorem cc_all_same (n : ℕ) (adj : ℕ → ℕ → Bool) (cls : ℕ → Bool)
    (hadj : ∀ a b, adj a b = true ↔ (a < n ∧ b < n ∧ a ≠ b ∧ cls a = cls b))
    (hn : 1 ≤ n) (hsame : ∀ i, i < n → cls i = cls 0) :
    ccLoop n adj (List.range n) (fun _ => false) 0 = 1 := by
  obtain ⟨m, rfl⟩ : ∃ m, n = m + 1 := ⟨n - 1, by omega⟩
  rw [List.range_succ_eq_map]
  simp only [ccLoop]
  rw [if_neg (by simp)]
  refine ccLoop_all_visited (m + 1) adj _ _ 1 ?_
  intro i hi
  obtain ⟨j, hj, rfl⟩ := List.mem_map.mp hi
  have hj1 : j + 1 < m + 1 := by
    have := List.mem_range.mp hj
    omega
  exact dfsVisit_class_cover (m + 1) adj cls hadj 0 (by omega) _ (j + 1) hj1
    (hsame (j + 1) hj1)

/-- Two agreement classes: the DFS component count is 2. -/
theorem cc_two_classes (n : ℕ) (adj : ℕ → ℕ → Bool) (cls : ℕ → Bool)
    (hadj : ∀ a b, adj a b = true ↔ (a < n ∧ b < n ∧ a ≠ b ∧ cls a = cls b))
    (hmix : ∃ i, i < n ∧ ∃ j, j < n ∧ cls i ≠ cls j) :
    ccLoop n adj (List.range n) (fun _ => false) 0 = 2 := by
  have hn : 1 ≤ n := by
    obtain ⟨i, hi, _⟩ := hmix
    omega
  obtain ⟨m, rfl⟩ : ∃ m, n = m + 1 := ⟨n - 1, by omega⟩
  rw [List.range_succ_eq_map]
  simp only [ccLoop]
  rw [if_neg (by simp)]
  have hchar : ∀ w, dfsVisit (m + 1) adj (m + 1) 0 (fun _ => false) w = true ↔
      (w < m + 1 ∧ cls w = cls 0) := by
    intro w
    constructor
    · intro hw
      rcases dfsVisit_class_only (m + 1) adj cls hadj (m + 1) 0 (fun _ => false)
          (fun u hu => absurd hu (by simp)) w hw with rfl | h
      · exact ⟨by omega, rfl⟩
      · exact h
    · intro ⟨h1, h2⟩
      exact dfsVisit_class_cover (m + 1) adj cls hadj 0 (by omega) _ w h1 h2
  have hother : ∃ w, w < m + 1 ∧ w ≠ 0 ∧ cls w ≠ cls 0 := by
    obtain ⟨i, hi, j, hj, hne⟩ := hmix
    by_cases hi0 : cls i = cls 0
    · have hj0 : cls j ≠ cls 0 := fun hc => hne (hi0.trans hc.symm)
      refine ⟨j, hj, ?_, hj0⟩
      intro hj0eq
      rw [hj0eq] at hj0
      exact hj0 rfl
    · refine ⟨i, hi, ?_, hi0⟩
      intro hi0eq
      rw [hi0eq] at hi0
      exact hi0 rfl
  obtain ⟨w, hw, hw0, hwne⟩ := hother
  refine ccLoop_one_more (m + 1) adj cls hadj (cls 0) _ _ 1 ?_ hchar ?_
  · intro i hi
    obtain ⟨j, hj, rfl⟩ := List.mem_map.mp hi
    have := List.mem_range.mp hj
    omega
  · refine ⟨w, ?_, hwne⟩
    obtain ⟨w2, rfl⟩ : ∃ w2, w = w2 + 1 := ⟨w - 1, by omega⟩
    exact List.mem_map.mpr ⟨w2, List.mem_range.mpr (by omega), rfl⟩

/-- `convertToVertices` preserves ids positionally. -/
theorem convert_getD_id (votes : List DecisionVertex) (i : ℕ)
    (hi : i < votes.length) :
    ((convertToVertices votes).getD i default).id = (votes.getD i default).id := by
  have hi2 : i < (convertToVertices votes).length := by
    simpa [convertToVertices] using hi
  rw [List.getD_eq_getElem _ _ hi2, List.getD_eq_getElem _ _ hi]
  simp [convertToVertices]

/-- With pairwise-distinct ids, positions are recoverable from ids. -/
theorem votes_id_inj (votes : List DecisionVertex)
    (hnodup : (votes.map (fun v => v.id)).Nodup) (a b : ℕ)
    (ha : a < votes.length) (hb : b < votes.length)
    (hab : (votes.getD a default).id = (votes.getD b default).id) : a = b := by
  have ha2 : a < (votes.map (fun v => v.id)).length := by simpa using ha
  have hb2 : b < (votes.map (fun v => v.id)).length := by simpa using hb
  refine (@List.Nodup.getElem_inj_iff _ _ hnodup a ha2 b hb2).mp ?_
  rw [List.getElem_map, List.getElem_map]
  rw [List.getD_eq_getElem _ _ ha, List.getD_eq_getElem _ _ hb] at hab
  exact hab

/-- If the only index of `l` whose id matches is `k`, a fold that already
holds `some k` keeps it. -/
theorem vertexIndexOf_foldl_keep (vs : List Vertex) (ident : String) (k : ℕ) :
    ∀ l : List ℕ, (∀ j ∈ l, (vs.getD j default).id = ident → j = k) →
      l.foldl (fun acc i => if (vs.getD i default).id = ident then some i else acc)
        (some k) = some k := by
  intro l
  induction l with
  | nil => intro _; rfl
  | cons i rest ihl =>
    intro hall
    simp only [List.foldl_cons]
    by_cases hc : (vs.getD i default).id = ident
    · rw [if_pos hc, hall i (List.mem_cons_self i rest) hc]
      exact ihl (fun j hj => hall j (List.mem_cons_of_mem _ hj))
    · rw [if_neg hc]
      exact ihl (fun j hj => hall j (List.mem_cons_of_mem _ hj))

/-- The last-wins id fold finds the unique matching index. -/
theorem vertexIndexOf_foldl_find (vs : List Vertex) (ident : String) (k : ℕ) :
    ∀ (l : List ℕ) (acc : Option ℕ), k ∈ l → (vs.getD k default).id = ident →
      (∀ j ∈ l, (vs.getD j default).id = ident → j = k) →
      l.foldl (fun acc i => if (vs.getD i default).id = ident then some i else acc)
        acc = some k := by
  intro l
  induction l with
  | nil =>
    intro acc hk
    exact absurd hk (List.not_mem_nil k)
  | cons i rest ihl =>
    intro acc hk hQk hall
    simp only [List.foldl_cons]
    by_cases hc : (vs.getD i default).id = ident
    · rw [if_pos hc, hall i (List.mem_cons_self i rest) hc]
      exact vertexIndexOf_foldl_keep vs ident k rest
        (fun j hj => hall j (List.mem_cons_of_mem _ hj))
    · rw [if_neg hc]
      rcases List.mem_cons.mp hk with rfl | hk2
      · exact absurd hQk hc
      · exact ihl acc hk2 hQk (fun j hj => hall j (List.mem_cons_of_mem _ hj))

/-- With distinct vote ids, the id → index map of the adjacency builder
returns exactly the vote's own position. -/
theorem vertexIndexOf_nodup (votes : List DecisionVertex)
    (hnodup : (votes.map (fun v => v.id)).Nodup) (i : ℕ) (hi : i < votes.length) :
    vertexIndexOf (convertToVertices votes) ((votes.getD i default).id) = some i := by
  have hlen : (convertToVertices votes).length = votes.length := by
    simp [convertToVertices]
  simp only [vertexIndexOf, hlen]
  refine vertexIndexOf_foldl_find _ _ i (List.range votes.length) none
    (List.mem_range.mpr hi) ?_ ?_
  · exact convert_getD_id votes i hi
  · intro j hj hQj
    have hjlt := List.mem_range.mp hj
    rw [convert_getD_id votes j hjlt] at hQj
    exact votes_id_inj votes hnodup j i hjlt hi hQj

/-- Membership characterization of the agreement-edge list. -/
theorem mem_buildConsensusEdges (votes : List DecisionVertex) (e : Edge) :
    e ∈ buildConsensusEdges votes ↔ ∃ i j, i < j ∧ j < votes.length ∧
      (votes.getD i default).agrees = (votes.getD j default).agrees ∧
      e = { id := "consensus-edge-" ++ toString i ++ "-" ++ toString j,
            fromId := (votes.getD i default).id,
            toId := (votes.getD j default).id } := by
  simp only [buildConsensusEdges, List.mem_flatMap, List.mem_filterMap,
    List.mem_filter, List.mem_range]
  constructor
  · rintro ⟨i, hi, j, ⟨hj, hij⟩, hsome⟩
    by_cases hc : (votes.getD i default).agrees = (votes.getD j default).agrees
    · rw [if_pos hc] at hsome
      exact ⟨i, j, by simpa using hij, hj, hc, (Option.some.inj hsome).symm⟩
    · rw [if_neg hc] at hsome
      exact Option.noConfusion hsome
  · rintro ⟨i, j, hij, hj, hc, rfl⟩
    refine ⟨i, by omega, j, ⟨hj, by simpa using hij⟩, ?_⟩
    rw [if_pos hc]

/-- One step of the adjacency-matrix fold, characterized. -/
theorem adjStep_spec (vs : List Vertex) (m : ℕ → ℕ → Bool) (e : Edge) (a b : ℕ) :
    ((match vertexIndexOf vs e.fromId, vertexIndexOf vs e.toId with
      | some i, some j =>
          fun a b => if (a = i ∧ b = j) ∨ (a = j ∧ b = i) then true else m a b
      | _, _ => m) : ℕ → ℕ → Bool) a b = true ↔
    (m a b = true ∨ ∃ i j, vertexIndexOf vs e.fromId = some i ∧
      vertexIndexOf vs e.toId = some j ∧ ((a = i ∧ b = j) ∨ (a = j ∧ b = i))) := by
  rcases h1 : vertexIndexOf vs e.fromId with _ | i
  · constructor
    · intro h
      exact Or.inl h
    · rintro (h | ⟨i, j, hsome, _, _⟩)
      · exact h
      · exact Option.noConfusion hsome
  · rcases h2 : vertexIndexOf vs e.toId with _ | j
    · constructor
      · intro h
        exact Or.inl h
      · rintro (h | ⟨i2, j2, _, hsome2, _⟩)
        · exact h
        · exact Option.noConfusion hsome2
    · constructor
      · intro h
        change (if (a = i ∧ b = j) ∨ (a = j ∧ b = i) then true else m a b) = true at h
        by_cases hcond : (a = i ∧ b = j) ∨ (a = j ∧ b = i)
        · exact Or.inr ⟨i, j, rfl, rfl, hcond⟩
        · rw [if_neg hcond] at h
          exact Or.inl h
      · intro h
        change (if (a = i ∧ b = j) ∨ (a = j ∧ b = i) then true else m a b) = true
        rcases h with h | ⟨i2, j2, hs1, hs2, hcond⟩
        · by_cases hcond : (a = i ∧ b = j) ∨ (a = j ∧ b = i)
          · rw [if_pos hcond]
          · rw [if_neg hcond]
            exact h
        · obtain rfl : i2 = i := (Option.some.inj hs1).symm
          obtain rfl : j2 = j := (Option.some.inj hs2).symm
          rw [if_pos hcond]

/-- The whole adjacency-matrix fold, characterized. -/
theorem adjFold_spec (vs : List Vertex) :
    ∀ (es : List Edge) (m : ℕ → ℕ → Bool) (a b : ℕ),
      ((es.foldl (fun m e =>
        match vertexIndexOf vs e.fromId, vertexIndexOf vs e.toId with
        | some i, some j =>
            fun a b => if (a = i ∧ b = j) ∨ (a = j ∧ b = i) then true else m a b
        | _, _ => m) m) a b = true) ↔
      (m a b = true ∨ ∃ e ∈ es, ∃ i j, vertexIndexOf vs e.fromId = some i ∧
        vertexIndexOf vs e.toId = some j ∧ ((a = i ∧ b = j) ∨ (a = j ∧ b = i))) := by
  intro es
  induction es with
  | nil =>
    intro m a b
    simp
  | cons e rest ihe =>
    intro m a b
    simp only [List.foldl_cons]
    rw [ihe, adjStep_spec]
    constructor
    · rintro ((h | ⟨i, j, h1, h2, hcond⟩) | ⟨e2, he2, hrest⟩)
      · exact Or.inl h
      · exact Or.inr ⟨e, List.mem_cons_self e rest, i, j, h1, h2, hcond⟩
      · exact Or.inr ⟨e2, List.mem_cons_of_mem _ he2, hrest⟩
    · rintro (h | ⟨e2, he2, hw⟩)
      · exact Or.inl (Or.inl h)
      · rcases List.mem_cons.mp he2 with rfl | he3
        · exact Or.inl (Or.inr hw)
        · exact Or.inr ⟨e2, he3, hw⟩

/-- The consensus adjacency matrix connects two positions exactly when
they are distinct in-range votes with the same agreement value. -/
theorem buildAdjacencyMatrix_spec (votes : List DecisionVertex)
    (hnodup : (votes.map (fun v => v.id)).Nodup) (a b : ℕ) :
    buildAdjacencyMatrix (convertToVertices votes) (buildConsensusEdges votes)
      a b = true ↔
    (a < votes.length ∧ b < votes.length ∧ a ≠ b ∧
      (votes.getD a default).agrees = (votes.getD b default).agrees) := by
  simp only [buildAdjacencyMatrix]
  rw [adjFold_spec]
  constructor
  · rintro (h | ⟨e, he, i, j, h1, h2, hcond⟩)
    · exact absurd h (by simp)
    · obtain ⟨i0, j0, hij, hj0, hagree, rfl⟩ := (mem_buildConsensusEdges votes e).mp he
      have hi0 : i0 < votes.length := by omega
      have hfi := vertexIndexOf_nodup votes hnodup i0 hi0
      have hfj := vertexIndexOf_nodup votes hnodup j0 hj0
      obtain rfl : i = i0 := (Option.some.inj (hfi.symm.trans h1)).symm
      obtain rfl : j = j0 := (Option.some.inj (hfj.symm.trans h2)).symm
      rcases hcond with ⟨rfl, rfl⟩ | ⟨rfl, rfl⟩
      · exact ⟨hi0, hj0, by omega, hagree⟩
      · exact ⟨hj0, hi0, by omega, hagree.symm⟩
  · rintro ⟨ha, hb, hne, hagree⟩
    rcases Nat.lt_or_ge a b with hab | hab
    · exact Or.inr ⟨_,
        (mem_buildConsensusEdges votes _).mpr ⟨a, b, hab, hb, hagree, rfl⟩,
        a, b, vertexIndexOf_nodup votes hnodup a ha,
        vertexIndexOf_nodup votes hnodup b hb, Or.inl ⟨rfl, rfl⟩⟩
    · have hba : b < a := by omega
      exact Or.inr ⟨_,
        (mem_buildConsensusEdges votes _).mpr ⟨b, a, hba, ha, hagree.symm, rfl⟩,
        b, a, vertexIndexOf_nodup votes hnodup b hb,
        vertexIndexOf_nodup votes hnodup a ha, Or.inr ⟨rfl, rfl⟩⟩

/-- C5: for every non-empty vote list with pairwise-distinct identifiers,
the agreement-derived consensus graph has β₀ = 1 when all votes share one
agreement value, β₀ = 2 when both values occur, and β₀ never exceeds 2. -/
theorem c5_consensus_graph_beta0 (votes : List DecisionVertex)
    (hne : votes ≠ []) (hnodup : (votes.map (fun v => v.id)).Nodup) :
    ((∀ v ∈ votes, ∀ w ∈ votes, v.agrees = w.agrees) →
      (calculateBettiNumbers (convertToVertices votes)
        (buildConsensusEdges votes)).beta_0 = 1) ∧
    ((∃ v ∈ votes, ∃ w ∈ votes, v.agrees ≠ w.agrees) →
      (calculateBettiNumbers (convertToVertices votes)
        (buildConsensusEdges votes)).beta_0 = 2) ∧
    (calculateBettiNumbers (convertToVertices votes)
      (buildConsensusEdges votes)).beta_0 ≤ 2 := by
  have hn : 1 ≤ votes.length := List.length_pos.mpr hne
  have hlen : (convertToVertices votes).length = votes.length := by
    simp [convertToVertices]
  have hgetDmem : ∀ i, i < votes.length → votes.getD i default ∈ votes := by
    intro i hi
    rw [List.getD_eq_getElem _ _ hi]
    exact List.getElem_mem hi
  have hbeta : (calculateBettiNumbers (convertToVertices votes)
      (buildConsensusEdges votes)).beta_0 =
      ccLoop votes.length
        (buildAdjacencyMatrix (convertToVertices votes) (buildConsensusEdges votes))
        (List.range votes.length) (fun _ => false) 0 := by
    rw [calculateBettiNumbers, if_neg (by rw [hlen]; omega)]
    show calculateConnectedComponents (convertToVertices votes) _ = _
    rw [calculateConnectedComponents, hlen]
  have hadj : ∀ a b, buildAdjacencyMatrix (convertToVertices votes)
      (buildConsensusEdges votes) a b = true ↔
      (a < votes.length ∧ b < votes.length ∧ a ≠ b ∧
        (fun i => (votes.getD i default).agrees) a =
        (fun i => (votes.getD i default).agrees) b) := by
    intro a b
    simpa using buildAdjacencyMatrix_spec votes hnodup a b
  have h1 : (∀ v ∈ votes, ∀ w ∈ votes, v.agrees = w.agrees) →
      (calculateBettiNumbers (convertToVertices votes)
        (buildConsensusEdges votes)).beta_0 = 1 := by
    intro hsame
    rw [hbeta]
    refine cc_all_same votes.length _ _ hadj hn ?_
    intro i hi
    exact hsame (votes.getD i default) (hgetDmem i hi)
      (votes.getD 0 default) (hgetDmem 0 (by omega))
  have h2 : (∃ v ∈ votes, ∃ w ∈ votes, v.agrees ≠ w.agrees) →
      (calculateBettiNumbers (convertToVertices votes)
        (buildConsensusEdges votes)).beta_0 = 2 := by
    intro hmix
    rw [hbeta]
    refine cc_two_classes votes.length _ _ hadj ?_
    obtain ⟨v, hv, w, hw, hvw⟩ := hmix
    obtain ⟨i, hi, hvi⟩ := List.mem_iff_getElem.mp hv
    obtain ⟨j, hj, hwj⟩ := List.mem_iff_getElem.mp hw
    refine ⟨i, hi, j, hj, ?_⟩
    show (votes.getD i default).agrees ≠ (votes.getD j default).agrees
    rw [List.getD_eq_getElem _ _ hi, List.getD_eq_getElem _ _ hj, hvi, hwj]
    exact hvw
  refine ⟨h1, h2, ?_⟩
  by_cases hsame : ∀ v ∈ votes, ∀ w ∈ votes, v.agrees = w.agrees
  · rw [h1 hsame]
    omega
  · push_neg at hsame
    rw [h2 hsame]

/-- Witness for C5: two agreeing votes and one disagreeing vote have a
two-component consensus graph; the two-vote all-agree case has one. -/
theorem c5_consensus_graph_beta0_witness :
    (([{ id := "a", name := "A", agrees := true },
       { id := "b", name := "B", agrees := true },
       { id := "c", name := "C", agrees := false }] : List DecisionVertex) ≠ [] ∧
     (([{ id := "a", name := "A", agrees := true },
        { id := "b", name := "B", agrees := true },
        { id := "c", name := "C", agrees := false }] :
         List DecisionVertex).map (fun v => v.id)).Nodup) ∧
    ((∃ v ∈ ([{ id := "a", name := "A", agrees := true },
              { id := "b", name := "B", agrees := true },
              { id := "c", name := "C", agrees := false }] : List DecisionVertex),
        ∃ w ∈ ([{ id := "a", name := "A", agrees := true },
                { id := "b", name := "B", agrees := true },
                { id := "c", name := "C", agrees := false }] : List DecisionVertex),
          v.agrees ≠ w.agrees) →
      (calculateBettiNumbers
        (convertToVertices [{ id := "a", name := "A", agrees := true },
                            { id := "b", name := "B", agrees := true },
                            { id := "c", name := "C", agrees := false }])
        (buildConsensusEdges [{ id := "a", name := "A", agrees := true },
                              { id := "b", name := "B", agrees := true },
                              { id := "c", name := "C", agrees := false }])).beta_0 = 2) ∧
    (calculateBettiNumbers
      (convertToVertices [{ id := "a", name := "A", agrees := true },
                          { id := "b", name := "B", agrees := true },
                          { id := "c", name := "C", agrees := false }])
      (buildConsensusEdges [{ id := "a", name := "A", agrees := true },
                            { id := "b", name := "B", agrees := true },
                            { id := "c", name := "C", agrees := false }])).beta_0 ≤ 2 :=
  ⟨⟨by decide, by decide⟩,
    (c5_consensus_graph_beta0 _ (by decide) (by decide)).2.1,
    (c5_consensus_graph_beta0 _ (by decide) (by decide)).2.2⟩

end RfcConsensus
